import Mathlib

/-!
# Verification of the Conduit X-Ray audit engine

A shallow embedding of the X-Ray subsystem of the `conduit` repository
(`src/xray/scanner.ts`, `src/xray/analyzer.ts`, `src/xray/graph.ts`, the
report module, and the `xray_report` tool handler in `src/server.ts`),
together with theorems settling the specification claims about it.

Modelling conventions:
* JavaScript `Map`s are modelled as association lists in insertion order;
  `Map.set` updates an existing key in place and appends a fresh key.
* JavaScript numbers are modelled as `ℚ` (all arithmetic performed by the
  analyzer stays on values where binary floating point is exact: integers
  below 2^53 and halves/tenth-rounding of such), sizes and counts as `ℕ`.
* Host-library calls with no algorithmic content in the repository
  (`new Date(s)` parsing, `JSON.parse` validity, wall-clock reads) are
  supplied by an explicit environment record, mirroring how the engine
  treats the content source as an external capability.
* `async`/`await` sequencing is modelled by explicit state passing; a
  thrown exception is an `Except.error`/`Option` value.
* The unbounded `while`/recursion of the scanner and the graph BFS are
  modelled with an explicit fuel parameter; fuel exhaustion returns `none`
  ("the run did not terminate within the budget") and theorems about
  whole runs take the successful run as a hypothesis or instantiate the
  fuel concretely.
-/

namespace Conduit

/-! ## JS-style helpers -/

/-- JS string truthiness fallback: `a || b` for strings (empty string is falsy). -/
def jsOr (a b : String) : String := if a = "" then b else a

/-- JS `a?.x || b` chain for an optional string. -/
def jsOrOpt (a : Option String) (b : String) : String :=
  match a with
  | none => b
  | some s => jsOr s b

/-- Association-list lookup, modelling `Map.get` (first binding wins; a JS map
has unique keys, so this is exact). -/
def mapGet {α : Type} (m : List (String × α)) (k : String) : Option α :=
  (m.find? (fun p => p.1 == k)).map (·.2)

/-- `Map.has`. -/
def mapHas {α : Type} (m : List (String × α)) (k : String) : Bool :=
  m.any (fun p => p.1 == k)

/-- `Map.set`: update an existing key in place (insertion order kept),
append a new key at the end. -/
def mapSet {α : Type} (m : List (String × α)) (k : String) (v : α) : List (String × α) :=
  match m with
  | [] => [(k, v)]
  | (k', v') :: rest =>
    if k' == k then (k', v) :: rest else (k', v') :: mapSet rest k v

/-- Substring test, modelling `String.prototype.includes`. -/
def jsIncludes (s pat : String) : Bool :=
  decide (pat.toList <:+: s.toList)

/-- `toUpperCase`/`toLowerCase` as the character-wise maps they are for this
data (kernel-reducible, unlike `String.map`). -/
def jsToUpper (s : String) : String := ⟨s.data.map Char.toUpper⟩

def jsToLower (s : String) : String := ⟨s.data.map Char.toLower⟩

/-- `String.prototype.split` with a one-character separator (all separators
in the source are single characters), kernel-reducible. -/
def splitOnCharAux (c : Char) : List Char → List Char → List String
  | [], acc => [⟨acc.reverse⟩]
  | x :: xs, acc =>
    if x == c then ⟨acc.reverse⟩ :: splitOnCharAux c xs []
    else splitOnCharAux c xs (x :: acc)

def jsSplitChar (s : String) (c : Char) : List String := splitOnCharAux c s.data []

/-- `startsWith` / `endsWith` / `substring(0, n)` over the character list
(kernel-reducible; equivalent for this data). -/
def jsStartsWith (s pre : String) : Bool := pre.data.isPrefixOf s.data

def jsEndsWith (s suf : String) : Bool := suf.data.isSuffixOf s.data

def jsTake (s : String) (n : Nat) : String := ⟨s.data.take n⟩

/-- `Math.round` on JS numbers: `⌊x + 1/2⌋` (rounds halves towards +∞). -/
def jsRound (q : ℚ) : ℤ := ⌊q + (1 : ℚ)/2⌋

/-- `x.toFixed(1)` for a non-negative JS number: nearest tenth, ties up. -/
def jsToFixed1 (q : ℚ) : String :=
  let n : ℕ := (jsRound (q * 10)).toNat
  Nat.repr (n / 10) ++ "." ++ Nat.repr (n % 10)

end Conduit

namespace Conduit

/-! ## Data model (`src/xray/types.ts`) -/

structure XRayScanConfig where
  rootPath : String
  maxDepth : Int
  includeTemplates : Bool
  includeMedia : Bool
  includeRenderings : Bool
  languages : List String
  database : String
  requestDelay : Nat
  maxItems : Nat
  tier : Nat
  deriving Repr, DecidableEq

def DEFAULT_SCAN_CONFIG : XRayScanConfig :=
  { rootPath := "/sitecore/content", maxDepth := -1, includeTemplates := true,
    includeMedia := true, includeRenderings := true, languages := ["en"],
    database := "master", requestDelay := 50, maxItems := 50000, tier := 1 }

structure IndexedItem where
  id : String
  name : String
  path : String
  templateId : String
  templateName : String
  parentId : String
  hasChildren : Bool
  updated : String
  language : String
  deriving Repr, DecidableEq

structure IndexedTemplate where
  id : String
  name : String
  path : String
  baseTemplateIds : List String
  deriving Repr, DecidableEq

structure IndexedMedia where
  id : String
  name : String
  path : String
  size : Nat
  extension : String
  deriving Repr, DecidableEq

structure IndexedRendering where
  id : String
  name : String
  path : String
  deriving Repr, DecidableEq

structure ItemField where
  name : String
  value : String
  type : Option String
  deriving Repr, DecidableEq

structure PageRendering where
  uid : String
  renderingId : String
  placeholder : String
  dataSourceId : Option String
  deriving Repr, DecidableEq

structure DeepItemData where
  id : String
  fields : List ItemField
  renderings : List PageRendering
  security : Option String
  deriving Repr, DecidableEq

inductive ScanStatus where
  | pending | scanning | analyzing | complete | failed
  deriving Repr, DecidableEq

inductive ScanPhase where
  | items | templates | media | renderings | deep | analyzing | complete
  deriving Repr, DecidableEq

structure ScanError where
  path : String
  message : String
  timestamp : String
  deriving Repr, DecidableEq

structure ScanProgress where
  phase : ScanPhase
  itemsScanned : Nat
  totalEstimate : Nat
  currentPath : String
  startedAt : String
  errors : List ScanError
  deriving Repr, DecidableEq

structure ScanResult where
  scanId : String
  status : ScanStatus
  config : XRayScanConfig
  progress : ScanProgress
  items : List (String × IndexedItem)
  templates : List (String × IndexedTemplate)
  media : List (String × IndexedMedia)
  renderings : List (String × IndexedRendering)
  childrenMap : List (String × List String)
  templateUsage : List (String × List String)
  renderingUsage : List (String × List String)
  references : List (String × List String)
  deepData : List (String × DeepItemData)
  startedAt : String
  completedAt : Option String
  deriving Repr, DecidableEq

inductive IssueSeverity where
  | critical | warning | info
  deriving Repr, DecidableEq

inductive IssueCategory where
  | orphan | unusedTemplate | unusedRendering | brokenLink | duplicate
  | security | deepNesting | largeMedia | staleContent | circularReference
  | emptyContainer | invalidField
  deriving Repr, DecidableEq

/-- The string form of a category as it appears in the TypeScript union type. -/
def categoryStr : IssueCategory → String
  | .orphan => "orphan"
  | .unusedTemplate => "unused-template"
  | .unusedRendering => "unused-rendering"
  | .brokenLink => "broken-link"
  | .duplicate => "duplicate"
  | .security => "security"
  | .deepNesting => "deep-nesting"
  | .largeMedia => "large-media"
  | .staleContent => "stale-content"
  | .circularReference => "circular-reference"
  | .emptyContainer => "empty-container"
  | .invalidField => "invalid-field"

def severityStr : IssueSeverity → String
  | .critical => "critical"
  | .warning => "warning"
  | .info => "info"

/-- A value stored in an issue's `metadata` record. -/
inductive MetaVal where
  | str (s : String)
  | num (q : ℚ)
  | strs (l : List String)
  deriving Repr, DecidableEq

/-- An issue as accumulated by a detector, before `addIssue` assigns the id. -/
structure IssueCore where
  severity : IssueSeverity
  category : IssueCategory
  title : String
  description : String
  itemId : Option String
  itemPath : Option String
  recommendation : Option String
  metadata : List (String × MetaVal)
  deriving Repr, DecidableEq

structure Issue where
  id : String
  severity : IssueSeverity
  category : IssueCategory
  title : String
  description : String
  itemId : Option String
  itemPath : Option String
  recommendation : Option String
  metadata : List (String × MetaVal)
  deriving Repr, DecidableEq

structure AnalysisStats where
  totalItems : Nat
  totalTemplates : Nat
  totalMedia : Nat
  totalRenderings : Nat
  orphanedItems : Nat
  unusedTemplates : Nat
  unusedRenderings : Nat
  brokenLinks : Nat
  duplicates : Nat
  securityIssues : Nat
  deeplyNested : Nat
  largeMedia : Nat
  staleContent : Nat
  circularRefs : Nat
  emptyContainers : Nat
  invalidFields : Nat
  avgDepth : ℚ
  maxDepth : Nat
  itemsPerTemplate : List (String × Nat)
  deriving Repr, DecidableEq

inductive HealthGrade where
  | A | B | C | D | F
  deriving Repr, DecidableEq

structure AnalysisResult where
  scanId : String
  analyzedAt : String
  healthScore : ℤ
  healthGrade : HealthGrade
  issues : List Issue
  stats : AnalysisStats
  deriving Repr, DecidableEq

/-- Host-library behaviour the analyzer depends on but the repository does not
implement: wall-clock time, the JS `Date` string parser (`none` models an
Invalid Date / `NaN` timestamp) and `JSON.parse` succeeding. -/
structure AnalyzerEnv where
  nowMs : ℚ
  nowIso : String
  dateParseMs : String → Option ℚ
  jsonValid : String → Bool

end Conduit

namespace Conduit

/-! ## GUID scanning (the regex
`/\{[0-9A-Fa-f]{8}-[0-9A-Fa-f]{4}-[0-9A-Fa-f]{4}-[0-9A-Fa-f]{4}-[0-9A-Fa-f]{12}\}/g`
used by the broken-link and circular-reference detectors and the graph
builder) -/

/-- The character class `[0-9A-Fa-f]`. -/
def isHexChar (c : Char) : Bool :=
  ('0' ≤ c && c ≤ '9') || ('A' ≤ c && c ≤ 'F') || ('a' ≤ c && c ≤ 'f')

/-- Try to match the brace-wrapped GUID pattern at the head of `cs`:
`{` 8 hex `-` 4 hex `-` 4 hex `-` 4 hex `-` 12 hex `}` (38 characters). -/
def guidAt (cs : List Char) : Bool :=
  match cs.take 38 with
  | '{' :: rest =>
    let h1 := rest.take 8
    let r1 := rest.drop 8
    h1.length = 8 && h1.all isHexChar &&
    (match r1 with
     | '-' :: r2 =>
       let h2 := r2.take 4
       let r3 := r2.drop 4
       h2.length = 4 && h2.all isHexChar &&
       (match r3 with
        | '-' :: r4 =>
          let h3 := r4.take 4
          let r5 := r4.drop 4
          h3.length = 4 && h3.all isHexChar &&
          (match r5 with
           | '-' :: r6 =>
             let h4 := r6.take 4
             let r7 := r6.drop 4
             h4.length = 4 && h4.all isHexChar &&
             (match r7 with
              | '-' :: r8 =>
                let h5 := r8.take 12
                let r9 := r8.drop 12
                h5.length = 12 && h5.all isHexChar && r9 = ['}']
              | _ => false)
           | _ => false)
        | _ => false)
     | _ => false)
  | _ => false

/-- All non-overlapping matches of the GUID regex, left to right, as a global
JS regex `match` produces them. Each step consumes at least one character, so
running with `fuel = cs.length` is exact; the fuel keeps the recursion
structural (kernel-reducible). -/
def extractGuidsAux : Nat → List Char → List String
  | 0, _ => []
  | _, [] => []
  | fuel+1, c :: tail =>
    if guidAt (c :: tail) then
      ⟨(c :: tail).take 38⟩ :: extractGuidsAux fuel (tail.drop 37)
    else
      extractGuidsAux fuel tail

def extractGuids (s : String) : List String := extractGuidsAux s.data.length s.data

end Conduit

namespace Conduit

/-! ## Analyzer (`src/xray/analyzer.ts`), detectors 1-8 -/

/-- Algorithm 1, loop body for one `(id, item)` entry. -/
def orphanIssuesFor (s : ScanResult) (p : String × IndexedItem) : List IssueCore :=
  (let id := p.1
    let item := p.2
    let orphanIssues :=
      if item.parentId ≠ "" && !(mapHas s.items item.parentId) then
        let expectedParentPath := String.intercalate "/" ((jsSplitChar item.path '/').dropLast)
        if item.parentId ≠ "" && expectedParentPath ≠ "" then
          [{ severity := .warning, category := .orphan,
             title := "Orphaned item: " ++ item.name,
             description := "Item\x27s parent (" ++ item.parentId ++
               ") was not found in the scanned content.",
             itemId := some id, itemPath := some item.path,
             recommendation := some "Verify the parent item exists or move this item to a valid location.",
             metadata := [] }]
        else []
      else []
    let pathParts := (jsSplitChar item.path '/').filter (· ≠ "")
    let mismatchIssues :=
      match pathParts.getLast? with
      | none => []
      | some expectedName =>
        if expectedName ≠ "" && item.name ≠ expectedName then
          [{ severity := .info, category := .orphan,
             title := "Path mismatch: " ++ item.name,
             description := "Item name \"" ++ item.name ++ "\" doesn\x27t match path segment \"" ++
               expectedName ++ "\".",
             itemId := some id, itemPath := some item.path,
             recommendation := some "Consider renaming the item to match its URL path.",
             metadata := [] }]
        else []
    orphanIssues ++ mismatchIssues)

/-- Algorithm 1: orphan detection. -/
def detectOrphans (s : ScanResult) : List IssueCore :=
  s.items.flatMap (orphanIssuesFor s)

/-- Algorithm 2: unused template detection. -/
def detectUnusedTemplates (s : ScanResult) : List IssueCore :=
  s.templates.flatMap (fun p =>
    let templateId := p.1
    let template := p.2
    let usage := (mapGet s.templateUsage templateId).getD []
    let isBaseTemplate := s.templates.any (fun q => q.2.baseTemplateIds.contains templateId)
    if usage.length = 0 && !isBaseTemplate then
      [{ severity := .info, category := .unusedTemplate,
         title := "Unused template: " ++ template.name,
         description := "Template has no content items using it.",
         itemId := some templateId, itemPath := some template.path,
         recommendation := some "Consider removing this template if it\x27s no longer needed.",
         metadata := [("usageCount", .num 0)] }]
    else [])

/-- Algorithm 3: unused rendering detection. -/
def detectUnusedRenderings (s : ScanResult) : List IssueCore :=
  s.renderings.flatMap (fun p =>
    let renderingId := p.1
    let rendering := p.2
    let usage := (mapGet s.renderingUsage renderingId).getD []
    if usage.length = 0 then
      [{ severity := .info, category := .unusedRendering,
         title := "Unused rendering: " ++ rendering.name,
         description := "Rendering is not used on any scanned pages.",
         itemId := some renderingId, itemPath := some rendering.path,
         recommendation := some "Consider removing this rendering if it\x27s no longer needed.",
         metadata := [("usageCount", .num 0)] }]
    else [])

/-- Algorithm 4: broken link detection. -/
def detectBrokenLinks (s : ScanResult) : List IssueCore :=
  s.deepData.flatMap (fun p =>
    let itemId := p.1
    let deepData := p.2
    let item := mapGet s.items itemId
    let fieldIssues := deepData.fields.flatMap (fun field =>
      (extractGuids field.value).flatMap (fun guid =>
        let cleanGuid := jsToUpper guid
        if !(mapHas s.items cleanGuid) && !(mapHas s.media cleanGuid) &&
            !(mapHas s.templates cleanGuid) then
          [{ severity := .warning, category := .brokenLink,
             title := "Broken link in: " ++ jsOrOpt (item.map (·.name)) itemId,
             description := "Field \"" ++ field.name ++ "\" references non-existent item " ++
               guid ++ ".",
             itemId := some itemId, itemPath := item.map (·.path),
             recommendation := some "Update or remove the broken reference.",
             metadata := [("field", .str field.name), ("targetId", .str guid)] }]
        else []))
    let renderingIssues := deepData.renderings.flatMap (fun rendering =>
      let ds := rendering.dataSourceId.getD ""
      if ds ≠ "" && !(mapHas s.items ds) then
        [{ severity := .warning, category := .brokenLink,
           title := "Broken data source on: " ++ jsOrOpt (item.map (·.name)) itemId,
           description := "Rendering data source " ++ ds ++ " not found.",
           itemId := some itemId, itemPath := item.map (·.path),
           recommendation := some "Update the rendering data source or remove the rendering.",
           metadata := [("renderingId", .str rendering.renderingId), ("dataSourceId", .str ds)] }]
      else [])
    fieldIssues ++ renderingIssues)

/-- Algorithm 5: duplicate detection: group items by `templateId:name.toLowerCase()`. -/
def duplicateGroups (s : ScanResult) : List (String × List String) :=
  s.items.foldl (fun groups p =>
    let key := p.2.templateId ++ ":" ++ jsToLower p.2.name
    mapSet groups key ((mapGet groups key).getD [] ++ [p.1])) []

def defaultIndexedItem : IndexedItem :=
  { id := "", name := "", path := "", templateId := "", templateName := "",
    parentId := "", hasChildren := false, updated := "", language := "" }

def detectDuplicates (s : ScanResult) : List IssueCore :=
  (duplicateGroups s).flatMap (fun p =>
    let key := p.1
    let itemIds := p.2
    if itemIds.length > 1 then
      let items := itemIds.map (fun id => (mapGet s.items id).getD defaultIndexedItem)
      let name := ((jsSplitChar key ':').drop 1).headD "undefined"
      [{ severity := .info, category := .duplicate,
         title := "Duplicate items: " ++ name,
         description := Nat.repr itemIds.length ++ " items with same name and template found.",
         itemId := none, itemPath := none,
         recommendation := some ("Review these items - they may be intentional (multisite) " ++
           "or accidental duplicates."),
         metadata := [("count", .num itemIds.length), ("paths", .strs (items.map (·.path))),
                      ("itemIds", .strs itemIds)] }]
    else [])

/-- Algorithm 6: security analysis (the security string is opaque; only the two
markers from the source are checked). -/
def detectSecurityIssues (s : ScanResult) : List IssueCore :=
  s.deepData.flatMap (fun p =>
    let itemId := p.1
    match p.2.security with
    | none => []
    | some security =>
      if security = "" then []   -- `if (!deepData.security) continue`
      else
        let item := mapGet s.items itemId
        (if jsIncludes security "Everyone" && jsIncludes security ":write" then
          [{ severity := .critical, category := .security,
             title := "Overly permissive: " ++ jsOrOpt (item.map (·.name)) itemId,
             description := "Item grants write access to Everyone role.",
             itemId := some itemId, itemPath := item.map (·.path),
             recommendation := some "Restrict write access to specific roles.",
             metadata := [("security", .str security)] }]
        else []) ++
        (if jsIncludes security "ar|" && jsIncludes security "|pd|" then
          [{ severity := .info, category := .security,
             title := "Complex security: " ++ jsOrOpt (item.map (·.name)) itemId,
             description := "Item has complex security rules that may need review.",
             itemId := some itemId, itemPath := item.map (·.path),
             recommendation := some "Review security configuration for correctness.",
             metadata := [("security", .str security)] }]
        else []))

/-- Path depth as computed throughout the analyzer:
`path.split('/').filter(Boolean).length`. -/
def pathDepth (path : String) : Nat :=
  ((jsSplitChar path '/').filter (· ≠ "")).length

/-- Algorithm 7: deep nesting detection. -/
def detectDeepNesting (s : ScanResult) : List IssueCore :=
  s.items.flatMap (fun p =>
    let id := p.1
    let item := p.2
    let depth := pathDepth item.path
    if depth > 15 then
      [{ severity := .critical, category := .deepNesting,
         title := "Critically deep: " ++ item.name,
         description := "Item is " ++ Nat.repr depth ++
           " levels deep. Sitecore performance degrades significantly past 15 levels.",
         itemId := some id, itemPath := some item.path,
         recommendation := some "Restructure content to reduce nesting depth.",
         metadata := [("depth", .num depth)] }]
    else if depth > 10 then
      [{ severity := .warning, category := .deepNesting,
         title := "Deeply nested: " ++ item.name,
         description := "Item is " ++ Nat.repr depth ++
           " levels deep. Consider flattening the structure.",
         itemId := some id, itemPath := some item.path,
         recommendation := some "Consider restructuring to improve performance.",
         metadata := [("depth", .num depth)] }]
    else [])

/-- `1024 * 1024`, the `MB` constant of algorithm 8. -/
def MB : Nat := 1024 * 1024

/-- Algorithm 8, loop body for one `(id, media)` entry. -/
def largeMediaIssuesFor (p : String × IndexedMedia) : List IssueCore :=
  (let id := p.1
    let media := p.2
    if media.size > 20 * MB then
      [{ severity := .critical, category := .largeMedia,
         title := "Very large file: " ++ media.name,
         description := "Media file is " ++ jsToFixed1 ((media.size : ℚ) / (MB : ℚ)) ++
           "MB. Files over 20MB significantly impact performance.",
         itemId := some id, itemPath := some media.path,
         recommendation := some "Compress or move to external storage (CDN, blob storage).",
         metadata := [("sizeBytes", .num media.size), ("sizeMB", .num ((media.size : ℚ) / (MB : ℚ)))] }]
    else if media.size > 5 * MB then
      [{ severity := .warning, category := .largeMedia,
         title := "Large file: " ++ media.name,
         description := "Media file is " ++ jsToFixed1 ((media.size : ℚ) / (MB : ℚ)) ++ "MB.",
         itemId := some id, itemPath := some media.path,
         recommendation := some "Consider compressing this file.",
         metadata := [("sizeBytes", .num media.size), ("sizeMB", .num ((media.size : ℚ) / (MB : ℚ)))] }]
    else [])

/-- Algorithm 8: large media detection. -/
def detectLargeMedia (s : ScanResult) : List IssueCore :=
  s.media.flatMap largeMediaIssuesFor

end Conduit

namespace Conduit

/-! ## Analyzer, detectors 9-12 and the scoring pipeline -/

/-- Algorithm 9: stale content. `new Date(s)` is the host date parser from the
environment; an unparsable date (`Invalid Date`) compares false on both
thresholds, exactly as `NaN < x` does. -/
def detectStaleContent (env : AnalyzerEnv) (s : ScanResult) : List IssueCore :=
  let oneYearAgo := env.nowMs - 365 * 24 * 60 * 60 * 1000
  let twoYearsAgo := env.nowMs - 730 * 24 * 60 * 60 * 1000
  s.items.flatMap (fun p =>
    let id := p.1
    let item := p.2
    if item.updated = "" then []   -- `if (!item.updated) continue`
    else
      match env.dateParseMs item.updated with
      | none => []
      | some updated =>
        if updated < twoYearsAgo then
          [{ severity := .warning, category := .staleContent,
             title := "Very stale: " ++ item.name,
             description := "Item hasn\x27t been updated in over 2 years.",
             itemId := some id, itemPath := some item.path,
             recommendation := some "Review for accuracy or consider archiving.",
             metadata := [("lastUpdated", .str item.updated)] }]
        else if updated < oneYearAgo then
          [{ severity := .info, category := .staleContent,
             title := "Stale content: " ++ item.name,
             description := "Item hasn\x27t been updated in over a year.",
             itemId := some id, itemPath := some item.path,
             recommendation := some "Review for accuracy.",
             metadata := [("lastUpdated", .str item.updated)] }]
        else [])

/-- The reference graph of algorithm 10: GUIDs appearing in deep-data field
values, uppercased, keyed by the referring item (only items with at least one
reference get an entry). -/
def buildRefGraph (deepData : List (String × DeepItemData)) : List (String × List String) :=
  deepData.foldl (fun refGraph p =>
    let refs := p.2.fields.flatMap (fun field => (extractGuids field.value).map jsToUpper)
    if refs.length > 0 then mapSet refGraph p.1 refs else refGraph) []

/-- State of the cycle-detection DFS: the persistent `visited` set and the
collected cycles. The explicit recursion stack of the source always holds
exactly the nodes of the current `path`, so stack membership is path
membership. -/
structure DfsSt where
  visited : List String
  cycles : List (List String)

/-- One `dfs(node, path)` call of algorithm 10. The source recursion is
bounded by the number of distinct nodes (each recursive call is on an
unvisited node); `fuel` makes that bound explicit and is chosen large enough
by the caller. -/
def dfsVisit (g : List (String × List String)) : Nat → String → List String → DfsSt → DfsSt
  | 0, _, _, st => st
  | fuel+1, node, path, st =>
    let path' := path ++ [node]
    let neighbors := (mapGet g node).getD []
    neighbors.foldl (fun (st : DfsSt) neighbor =>
        if st.visited.contains neighbor then
          if path'.contains neighbor then
            { st with cycles := st.cycles ++ [path'.drop (path'.indexOf neighbor)] }
          else st
        else dfsVisit g fuel neighbor path' st)
      { st with visited := st.visited ++ [node] }

/-- Sufficient DFS fuel: recursion depth never exceeds the number of distinct
node names occurring in the graph. -/
def dfsFuel (g : List (String × List String)) : Nat :=
  1 + g.length + (g.map (fun p => p.2.length)).sum

/-- Algorithm 10: circular reference detection. -/
def detectCircularReferences (s : ScanResult) : List IssueCore :=
  let refGraph := buildRefGraph s.deepData
  let final := refGraph.foldl (fun (st : DfsSt) p =>
      if st.visited.contains p.1 then st
      else dfsVisit refGraph (dfsFuel refGraph) p.1 [] st)
    { visited := [], cycles := [] }
  final.cycles.map (fun cycle =>
    let items := cycle.map (fun id => jsOrOpt ((mapGet s.items id).map (·.name)) id)
    { severity := .warning, category := .circularReference,
      title := "Circular reference detected",
      description := "Items reference each other in a cycle: " ++
        String.intercalate " → " items ++ ".",
      itemId := none, itemPath := none,
      recommendation := some "Review and break the circular dependency.",
      metadata := [("cycle", .strs cycle), ("itemNames", .strs items)] })

/-- Algorithm 11: empty container detection. -/
def detectEmptyContainers (s : ScanResult) : List IssueCore :=
  s.items.flatMap (fun p =>
    let id := p.1
    let item := p.2
    let templateName := jsToLower item.templateName
    let isFolderLike := jsIncludes templateName "folder" || jsIncludes templateName "bucket" ||
      jsIncludes templateName "container"
    if isFolderLike && !item.hasChildren then
      [{ severity := .info, category := .emptyContainer,
         title := "Empty folder: " ++ item.name,
         description := "Folder has no child items.",
         itemId := some id, itemPath := some item.path,
         recommendation := some "Add content or remove this empty folder.",
         metadata := [] }]
    else [])

/-- The regex `^\d{8}T\d{6}Z?$` (Sitecore date format `yyyyMMddTHHmmssZ`). -/
def sitecoreDateMatch (s : String) : Bool :=
  let cs := s.data
  let d8 := cs.take 8
  let r1 := cs.drop 8
  d8.length = 8 && d8.all Char.isDigit &&
  (match r1 with
   | 'T' :: r2 =>
     let d6 := r2.take 6
     let r3 := r2.drop 6
     d6.length = 6 && d6.all Char.isDigit && (r3 = [] || r3 = ['Z'])
   | _ => false)

/-- `isValidDate`: the Sitecore pattern, or any string the host date parser
accepts. -/
def isValidDate (env : AnalyzerEnv) (value : String) : Bool :=
  sitecoreDateMatch value || (env.dateParseMs value).isSome

/-- The full-string GUID regex of `isValidLinkField`:
`^\{?[0-9A-Fa-f]{8}-...-[0-9A-Fa-f]{12}\}?$` (each brace independently
optional). -/
def guidFullMatch (s : String) : Bool :=
  let cs := s.data
  let cs1 := match cs with
    | '{' :: r => r
    | _ => cs
  let body := match cs1.getLast? with
    | some '}' => cs1.dropLast
    | _ => cs1
  let h1 := body.take 8
  let r1 := body.drop 8
  h1.length = 8 && h1.all isHexChar &&
  (match r1 with
   | '-' :: r2 =>
     let h2 := r2.take 4
     let r3 := r2.drop 4
     h2.length = 4 && h2.all isHexChar &&
     (match r3 with
      | '-' :: r4 =>
        let h3 := r4.take 4
        let r5 := r4.drop 4
        h3.length = 4 && h3.all isHexChar &&
        (match r5 with
         | '-' :: r6 =>
           let h4 := r6.take 4
           let r7 := r6.drop 4
           h4.length = 4 && h4.all isHexChar &&
           (match r7 with
            | '-' :: r8 => r8.length = 12 && r8.all isHexChar
            | _ => false)
         | _ => false)
      | _ => false)
   | _ => false)

/-- `isValidLinkField`. -/
def isValidLinkField (value : String) : Bool :=
  if jsIncludes value "<link" then true
  else if guidFullMatch value then true
  else jsStartsWith value "http://" || jsStartsWith value "https://" || jsStartsWith value "/"

/-- Algorithm 12: invalid field validation. `JSON.parse` success is supplied
by the environment. -/
def detectInvalidFields (env : AnalyzerEnv) (s : ScanResult) : List IssueCore :=
  s.deepData.flatMap (fun p =>
    let itemId := p.1
    let deepData := p.2
    let item := mapGet s.items itemId
    deepData.fields.flatMap (fun field =>
      let dateIssues :=
        if (match field.type with
            | some t => jsIncludes (jsToLower t) "date"
            | none => false) && field.value ≠ "" then
          if !(isValidDate env field.value) then
            [{ severity := .warning, category := .invalidField,
               title := "Invalid date: " ++ jsOrOpt (item.map (·.name)) itemId,
               description := "Field \"" ++ field.name ++ "\" has invalid date value.",
               itemId := some itemId, itemPath := item.map (·.path),
               recommendation := some "Correct the date format.",
               metadata := [("field", .str field.name), ("value", .str field.value)] }]
          else []
        else []
      let linkIssues :=
        if (match field.type with
            | some t => jsIncludes (jsToLower t) "link"
            | none => false) && field.value ≠ "" then
          if !(isValidLinkField field.value) then
            [{ severity := .info, category := .invalidField,
               title := "Malformed link: " ++ jsOrOpt (item.map (·.name)) itemId,
               description := "Field \"" ++ field.name ++ "\" has malformed link value.",
               itemId := some itemId, itemPath := item.map (·.path),
               recommendation := some "Review and correct the link field.",
               metadata := [("field", .str field.name), ("value", .str (jsTake field.value 100))] }]
          else []
        else []
      let jsonIssues :=
        if jsStartsWith field.value "\x7b" && jsEndsWith field.value "\x7d" then
          if env.jsonValid field.value then []
          else
            [{ severity := .warning, category := .invalidField,
               title := "Invalid JSON: " ++ jsOrOpt (item.map (·.name)) itemId,
               description := "Field \"" ++ field.name ++ "\" appears to contain invalid JSON.",
               itemId := some itemId, itemPath := item.map (·.path),
               recommendation := some "Fix the JSON syntax.",
               metadata := [("field", .str field.name)] }]
        else []
      dateIssues ++ linkIssues ++ jsonIssues))

end Conduit

namespace Conduit

/-! ## Stats, health score, grade, id assignment (`analyzer.ts` helpers) -/

/-- The per-category issue count accumulated by the `switch` in
`calculateStats`. -/
def countCat (issues : List IssueCore) (c : IssueCategory) : Nat :=
  issues.countP (fun i => i.category == c)

def calculateStats (s : ScanResult) (issues : List IssueCore) : AnalysisStats :=
  let totalDepth := (s.items.map (fun p => pathDepth p.2.path)).sum
  { totalItems := s.items.length
    totalTemplates := s.templates.length
    totalMedia := s.media.length
    totalRenderings := s.renderings.length
    orphanedItems := countCat issues .orphan
    unusedTemplates := countCat issues .unusedTemplate
    unusedRenderings := countCat issues .unusedRendering
    brokenLinks := countCat issues .brokenLink
    duplicates := countCat issues .duplicate
    securityIssues := countCat issues .security
    deeplyNested := countCat issues .deepNesting
    largeMedia := countCat issues .largeMedia
    staleContent := countCat issues .staleContent
    circularRefs := countCat issues .circularReference
    emptyContainers := countCat issues .emptyContainer
    invalidFields := countCat issues .invalidField
    avgDepth := if s.items.length > 0 then (totalDepth : ℚ) / (s.items.length : ℚ) else 0
    maxDepth := (s.items.map (fun p => pathDepth p.2.path)).foldl max 0
    itemsPerTemplate := s.templateUsage.foldl (fun acc p =>
      let name := jsOrOpt ((mapGet s.templates p.1).map (·.name)) p.1
      mapSet acc name p.2.length) [] }

/-- `calculateHealthScore`: capped severity deductions, category bonuses,
`Math.round`, clamp to `[0, 100]`. -/
def calculateHealthScore (issues : List IssueCore) (stats : AnalysisStats) : ℤ :=
  let critical : ℚ := issues.countP (fun i => i.severity == .critical)
  let warning : ℚ := issues.countP (fun i => i.severity == .warning)
  let info : ℚ := issues.countP (fun i => i.severity == .info)
  let score : ℚ := 100
  let score := score - min (critical * 5) 40
  let score := score - min (warning * 2) 30
  let score := score - min (info * (1/2)) 10
  let score := if stats.orphanedItems = 0 then score + 5 else score
  let score := if stats.brokenLinks = 0 then score + 5 else score
  let score := if stats.unusedTemplates = 0 then score + 5 else score
  let score := if stats.securityIssues = 0 then score + 5 else score
  max 0 (min 100 (jsRound score))

def getHealthGrade (score : ℤ) : HealthGrade :=
  if score ≥ 90 then .A
  else if score ≥ 80 then .B
  else if score ≥ 70 then .C
  else if score ≥ 60 then .D
  else .F

/-- `addIssue` assigns `issue-${++counter}` in emission order; `assignIds k`
stamps a list of accumulated issues starting from counter value `k`. -/
def assignIds : Nat → List IssueCore → List Issue
  | _, [] => []
  | counter, c :: cs =>
    { id := "issue-" ++ Nat.repr (counter + 1),
      severity := c.severity, category := c.category, title := c.title,
      description := c.description, itemId := c.itemId, itemPath := c.itemPath,
      recommendation := c.recommendation, metadata := c.metadata } :: assignIds (counter + 1) cs

/-- The issue list accumulated by `analyze()` running the 12 detectors in
source order. -/
def analyzeIssueCores (env : AnalyzerEnv) (s : ScanResult) : List IssueCore :=
  detectOrphans s ++ detectUnusedTemplates s ++ detectUnusedRenderings s ++
  detectBrokenLinks s ++ detectDuplicates s ++ detectSecurityIssues s ++
  detectDeepNesting s ++ detectLargeMedia s ++ detectStaleContent env s ++
  detectCircularReferences s ++ detectEmptyContainers s ++ detectInvalidFields env s

/-- `XRayAnalyzer.analyze` / `analyzeXRayScan`. -/
def analyzeXRayScan (env : AnalyzerEnv) (s : ScanResult) : AnalysisResult :=
  let cores := analyzeIssueCores env s
  let stats := calculateStats s cores
  let healthScore := calculateHealthScore cores stats
  { scanId := s.scanId, analyzedAt := env.nowIso, healthScore := healthScore,
    healthGrade := getHealthGrade healthScore, issues := assignIds 0 cores, stats := stats }

end Conduit

namespace Conduit

/-! ## Scanner (`src/xray/scanner.ts`)

The adapter boundary is the set of fetch helpers the crawl awaits; each is an
oracle that either returns data or throws (`Except.error`). The progress
callback supplied by the caller may also throw — it is the one call site of
`scanItems`/`deepScanFlaggedItems` outside any `try`, so its exception
escapes to the top-level `catch` of `scan`. -/

/-- The raw item shape returned by the fetch helpers (`ItemFields` entries
reuse `ItemField` for `{Name, Value, Type?}`). -/
structure SitecoreItem where
  ItemID : String
  ItemName : String
  ItemPath : String
  TemplateID : String
  TemplateName : String
  ParentID : Option String
  HasChildren : Option Bool
  ItemUpdated : Option String
  ItemLanguage : Option String
  ItemFields : Option (List ItemField)
  deriving Repr, DecidableEq

structure ScanOracle where
  fetchChildren : String → Except String (List SitecoreItem)
  fetchTemplates : Except String (List SitecoreItem)
  fetchMedia : Except String (List SitecoreItem)
  fetchRenderings : Except String (List SitecoreItem)
  fetchDeepItemData : String → Option DeepItemData
  onProgress : ScanProgress → Except String Unit

/-- Wall-clock values used by the scanner (`new Date().toISOString()`,
`generateScanId`). -/
structure ScanEnv where
  nowIso : String
  scanId : String

def initializeResult (env : ScanEnv) (cfg : XRayScanConfig) : ScanResult :=
  { scanId := env.scanId, status := .pending, config := cfg,
    progress := { phase := .items, itemsScanned := 0, totalEstimate := 0,
                  currentPath := "", startedAt := env.nowIso, errors := [] },
    items := [], templates := [], media := [], renderings := [],
    childrenMap := [], templateUsage := [], renderingUsage := [], references := [],
    deepData := [], startedAt := env.nowIso, completedAt := none }

/-- Constructor for `ScanError` entries, used in lemma statements. -/
def scanErr (p m ts : String) : ScanError :=
  { path := p, message := m, timestamp := ts }

def pushScanError (res : ScanResult) (path message ts : String) : ScanResult :=
  { res with progress := { res.progress with
      errors := res.progress.errors ++ [{ path := path, message := message, timestamp := ts }] } }

def truncMsg (maxItems : Nat) : String :=
  "Max items limit reached (" ++ Nat.repr maxItems ++ "). Scan truncated."

/-- Projection of a fetched item into the Tier-1 index (`||` fallbacks as in
the source; `languages[0]` of an empty language list is modelled as `""`). -/
def projectIndexedItem (cfg : XRayScanConfig) (it : SitecoreItem) : IndexedItem :=
  { id := it.ItemID, name := it.ItemName, path := it.ItemPath,
    templateId := it.TemplateID, templateName := it.TemplateName,
    parentId := (it.ParentID.getD ""),
    hasChildren := it.HasChildren.getD false,
    updated := (it.ItemUpdated.getD ""),
    language := jsOr (it.ItemLanguage.getD "") (cfg.languages.headD "") }

def shouldContinueDepth (cfg : XRayScanConfig) (currentDepth : Nat) : Bool :=
  if cfg.maxDepth = -1 then true else (currentDepth : Int) < cfg.maxDepth

/-- The `for (const item of children)` body of the Tier-1 loop. Returns the
updated result, the updated queue, and whether the `maxItems` truncation
`return` fired. `ab` is the cooperative abort flag (constant within a pure
run; `abort()` is a concurrent caller action). -/
def processChildren (env : ScanEnv) (cfg : XRayScanConfig) (ab : Bool) (depth : Nat) :
    List SitecoreItem → ScanResult → List String → ScanResult × List String × Bool
  | [], res, queue => (res, queue, false)
  | it :: rest, res, queue =>
    if ab then (res, queue, false)
    else if res.items.length ≥ cfg.maxItems then
      (pushScanError res res.progress.currentPath (truncMsg cfg.maxItems) env.nowIso, queue, true)
    else
      let res := { res with
        items := mapSet res.items it.ItemID (projectIndexedItem cfg it),
        progress := { res.progress with itemsScanned := res.progress.itemsScanned + 1 } }
      let queue :=
        if it.HasChildren.getD false && shouldContinueDepth cfg depth then
          queue ++ [it.ItemPath]
        else queue
      processChildren env cfg ab depth rest res queue

/-- The Tier-1 `while (queue.length > 0 && !this.aborted)` loop. `depth` is
the source's per-iteration counter. Fuel exhaustion returns `none`
(the source loop simply has not terminated within the budget). The second
component of a `some` result is the exception escaping the loop (from the
`onProgress` call site outside the per-path `try`), if any. -/
def scanItemsLoop (env : ScanEnv) (O : ScanOracle) (cfg : XRayScanConfig) (ab : Bool) :
    Nat → ScanResult → List String → Nat → Option (ScanResult × Option String)
  | 0, _, _, _ => none
  | fuel+1, res, queue, depth =>
    match queue with
    | [] => some (res, none)
    | p :: rest =>
      if ab then some (res, none)
      else
        let res := { res with progress := { res.progress with currentPath := p } }
        match O.fetchChildren p with
        | .error e =>
          let res := pushScanError res p e env.nowIso
          match O.onProgress res.progress with
          | .error e2 => some (res, some e2)
          | .ok _ => scanItemsLoop env O cfg ab fuel res rest (depth + 1)
        | .ok children =>
          match processChildren env cfg ab depth children res rest with
          | (res, _, true) => some (res, none)   -- truncation `return` exits scanItems
          | (res, queue2, false) =>
            match O.onProgress res.progress with
            | .error e2 => some (res, some e2)
            | .ok _ => scanItemsLoop env O cfg ab fuel res queue2 (depth + 1)

def scanItems (env : ScanEnv) (O : ScanOracle) (cfg : XRayScanConfig) (ab : Bool) (fuel : Nat)
    (res : ScanResult) : Option (ScanResult × Option String) :=
  let res := { res with progress := { res.progress with phase := .items } }
  scanItemsLoop env O cfg ab fuel res [cfg.rootPath] 0

/-- `extractBaseTemplates`: pipe-separated GUID list in the
`__Base template` field. -/
def extractBaseTemplates (t : SitecoreItem) : List String :=
  match (t.ItemFields.getD []).find? (fun f => f.name == "__Base template") with
  | none => []
  | some f => if f.value = "" then [] else (jsSplitChar f.value '|').filter (· ≠ "")

def scanTemplates (env : ScanEnv) (O : ScanOracle) (res : ScanResult) : ScanResult :=
  let res := { res with progress := { res.progress with
    phase := .templates, currentPath := "/sitecore/templates" } }
  match O.fetchTemplates with
  | .error e => pushScanError res "/sitecore/templates" e env.nowIso
  | .ok templates' =>
    let res := templates'.foldl (fun res t =>
      { res with templates := (mapSet res.templates t.ItemID
          { id := t.ItemID, name := t.ItemName, path := t.ItemPath,
            baseTemplateIds := extractBaseTemplates t }) }) res
    match O.onProgress res.progress with
    | .error e => pushScanError res "/sitecore/templates" e env.nowIso
    | .ok _ => res

/-- `parseInt(v, 10)` restricted to the decimal numerals the scanner itself
produces in `fetchMedia` (`String(m.size)`); anything else maps to `0`. -/
def jsParseNat (s : String) : Nat := (s.toNat?).getD 0

def scanMedia (env : ScanEnv) (O : ScanOracle) (res : ScanResult) : ScanResult :=
  let res := { res with progress := { res.progress with
    phase := .media, currentPath := "/sitecore/media library" } }
  match O.fetchMedia with
  | .error e => pushScanError res "/sitecore/media library" e env.nowIso
  | .ok mediaItems =>
    let res := mediaItems.foldl (fun res it =>
      let sizeField := (it.ItemFields.getD []).find? (fun f => f.name == "Size")
      let extField := (it.ItemFields.getD []).find? (fun f => f.name == "Extension")
      { res with media := (mapSet res.media it.ItemID
          { id := it.ItemID, name := it.ItemName, path := it.ItemPath,
            size := match sizeField with
              | some f => jsParseNat f.value
              | none => 0,
            extension := (extField.map (·.value)).getD "" }) }) res
    match O.onProgress res.progress with
    | .error e => pushScanError res "/sitecore/media library" e env.nowIso
    | .ok _ => res

def scanRenderings (env : ScanEnv) (O : ScanOracle) (res : ScanResult) : ScanResult :=
  let res := { res with progress := { res.progress with
    phase := .renderings, currentPath := "/sitecore/layout/renderings" } }
  match O.fetchRenderings with
  | .error e => pushScanError res "/sitecore/layout/renderings" e env.nowIso
  | .ok renderings' =>
    let res := renderings'.foldl (fun res it =>
      { res with renderings := (mapSet res.renderings it.ItemID
          { id := it.ItemID, name := it.ItemName, path := it.ItemPath }) }) res
    match O.onProgress res.progress with
    | .error e => pushScanError res "/sitecore/layout/renderings" e env.nowIso
    | .ok _ => res

/-- Tier-2 candidate selection: page-like template names, capped at 1000. -/
def getItemsForDeepScan (res : ScanResult) : List String :=
  ((res.items.filter (fun p =>
      let templateName := jsToLower p.2.templateName
      jsIncludes templateName "page" || jsIncludes templateName "article" ||
      jsIncludes templateName "landing" || jsIncludes templateName "home" ||
      jsIncludes templateName "content page")).map (·.1)).take 1000

/-- Tier-2 deep scan. `fetchDeepItemData` catches internally and returns
`none` on failure, so the per-item `try` never fires; the trailing
`onProgress` call is outside any `try` and its exception escapes. -/
def deepScanFlaggedItems (O : ScanOracle) (ab : Bool) (res : ScanResult) :
    ScanResult × Option String :=
  let res := { res with progress := { res.progress with phase := .deep } }
  let res := (getItemsForDeepScan res).foldl (fun res itemId =>
    if ab then res
    else match O.fetchDeepItemData itemId with
      | some deepData => { res with deepData := (mapSet res.deepData itemId deepData) }
      | none => res) res
  match O.onProgress res.progress with
  | .error e => (res, some e)
  | .ok _ => (res, none)

def buildRelationshipMaps (res : ScanResult) : ScanResult :=
  let res := res.items.foldl (fun res p =>
    if p.2.parentId ≠ "" then
      { res with childrenMap := (mapSet res.childrenMap p.2.parentId
          ((mapGet res.childrenMap p.2.parentId).getD [] ++ [p.1])) }
    else res) res
  let res := res.items.foldl (fun res p =>
    { res with templateUsage := (mapSet res.templateUsage p.2.templateId
        ((mapGet res.templateUsage p.2.templateId).getD [] ++ [p.1])) }) res
  res.deepData.foldl (fun res p =>
    p.2.renderings.foldl (fun res r =>
      { res with renderingUsage := (mapSet res.renderingUsage r.renderingId
          ((mapGet res.renderingUsage r.renderingId).getD [] ++ [p.1])) }) res) res

/-- The Tier-1.5 catalogue phases of `scan()`, gated by the config flags. -/
def scanStages (env : ScanEnv) (O : ScanOracle) (cfg : XRayScanConfig) (res : ScanResult) :
    ScanResult :=
  let res := if cfg.includeTemplates then scanTemplates env O res else res
  let res := if cfg.includeMedia then scanMedia env O res else res
  if cfg.includeRenderings then scanRenderings env O res else res

/-- The body of the top-level `try` in `scan()`. A `some (res, some e)`
result is an exception escaping to the `catch`. -/
def scanBody (env : ScanEnv) (O : ScanOracle) (cfg : XRayScanConfig) (ab : Bool) (fuel : Nat)
    (res : ScanResult) : Option (ScanResult × Option String) :=
  match scanItems env O cfg ab fuel res with
  | none => none
  | some (res, some e) => some (res, some e)
  | some (res, none) =>
    let res := scanStages env O cfg res
    match (if cfg.tier ≥ 2 then deepScanFlaggedItems O ab res else (res, none)) with
    | (res, some e) => some (res, some e)
    | (res, none) =>
      let res := buildRelationshipMaps res
      some ({ res with
              status := .complete
              completedAt := some env.nowIso
              progress := { res.progress with phase := .complete } }, none)

/-- The state `scan()` hands to the body of its top-level `try`. -/
def scanInitial (env : ScanEnv) (cfg : XRayScanConfig) : ScanResult :=
  { initializeResult env cfg with status := .scanning, startedAt := env.nowIso }

/-- `XRayScanner.scan`: only an exception escaping `scanBody` sets
`status = failed`. -/
def scan (env : ScanEnv) (O : ScanOracle) (cfg : XRayScanConfig) (ab : Bool) (fuel : Nat) :
    Option ScanResult :=
  match scanBody env O cfg ab fuel (scanInitial env cfg) with
  | none => none
  | some (res, none) => some res
  | some (res, some e) => some { res with
      status := .failed
      progress := { res.progress with errors := (res.progress.errors ++
        [{ path := res.progress.currentPath, message := e, timestamp := env.nowIso }]) } }

end Conduit

namespace Conduit

/-! ## Knowledge graph builder (`src/xray/graph.ts`) -/

inductive NodeType where
  | item | template | media | rendering | placeholder
  deriving Repr, DecidableEq

inductive EdgeType where
  | parentOf | childOf | instanceOf | inherits | references
  | usesRendering | datasource | usesMedia
  deriving Repr, DecidableEq

structure GraphNode where
  id : String
  type : NodeType
  label : String
  path : Option String
  metadata : List (String × MetaVal)
  deriving Repr, DecidableEq

structure GraphEdge where
  source : String
  target : String
  type : EdgeType
  deriving Repr, DecidableEq

/-- `Required<GraphOptions>` after the constructor merges defaults. -/
structure GraphOptions where
  nodeTypes : List NodeType
  maxNodes : Nat
  centerOn : String
  includeEdges : Bool
  deriving Repr, DecidableEq

def DEFAULT_GRAPH_OPTIONS : GraphOptions :=
  { nodeTypes := [.item, .template, .media, .rendering, .placeholder],
    maxNodes := 1000, centerOn := "", includeEdges := true }

structure GraphStats where
  nodeCount : Nat
  edgeCount : Nat
  itemNodes : Nat
  templateNodes : Nat
  mediaNodes : Nat
  renderingNodes : Nat
  placeholderNodes : Nat
  parentOfEdges : Nat
  childOfEdges : Nat
  instanceOfEdges : Nat
  inheritsEdges : Nat
  referencesEdges : Nat
  usesRenderingEdges : Nat
  datasourceEdges : Nat
  usesMediaEdges : Nat
  deriving Repr, DecidableEq

structure KnowledgeGraph where
  scanId : String
  generatedAt : String
  nodes : List GraphNode
  edges : List GraphEdge
  stats : GraphStats
  deriving Repr, DecidableEq

/-- Builder state: the `nodes` map (keyed by id, insertion order) and the
`edges` array. -/
structure BuilderSt where
  nodes : List (String × GraphNode)
  edges : List GraphEdge
  deriving Repr, DecidableEq

def shouldIncludeType (opts : GraphOptions) (t : NodeType) : Bool :=
  opts.nodeTypes.contains t

/-- `addNode`: insert only when the id is not yet present. -/
def addNode (st : BuilderSt) (node : GraphNode) : BuilderSt :=
  if mapHas st.nodes node.id then st
  else { st with nodes := st.nodes ++ [(node.id, node)] }

/-- `addEdge`: de-duplicated on `(source, target, type)`. -/
def addEdge (st : BuilderSt) (source target : String) (type : EdgeType) : BuilderSt :=
  if st.edges.any (fun e => e.source == source && e.target == target && e.type == type) then st
  else { st with edges := st.edges ++ [{ source := source, target := target, type := type }] }

set_option maxHeartbeats 1000000 in
/-- `buildFull`: project every entity of the scan. -/
def buildFull (scan : ScanResult) (opts : GraphOptions) : BuilderSt :=
  let st : BuilderSt := { nodes := [], edges := [] }
  let st :=
    if shouldIncludeType opts .item then
      scan.items.foldl (fun st p =>
        let id := p.1
        let item := p.2
        let st := addNode st { id := id, type := .item, label := item.name, path := some item.path, metadata := [("templateName", .str item.templateName)] }
        let st :=
          if item.parentId ≠ "" && mapHas scan.items item.parentId then
            addEdge st item.parentId id .parentOf
          else st
        if shouldIncludeType opts .template && item.templateId ≠ "" then
          addEdge st id item.templateId .instanceOf
        else st) st
    else st
  let st :=
    if shouldIncludeType opts .template then
      scan.templates.foldl (fun st p =>
        let id := p.1
        let template := p.2
        let st := addNode st { id := id, type := .template, label := template.name, path := some template.path, metadata := [] }
        template.baseTemplateIds.foldl (fun st baseId =>
          if mapHas scan.templates baseId then addEdge st id baseId .inherits else st) st) st
    else st
  let st :=
    if shouldIncludeType opts .media then
      scan.media.foldl (fun st p =>
        addNode st { id := p.1, type := .media, label := p.2.name, path := some p.2.path, metadata := [("size", .num p.2.size), ("extension", .str p.2.extension)] }) st
    else st
  let st :=
    if shouldIncludeType opts .rendering then
      let st := scan.renderings.foldl (fun st p =>
        addNode st { id := p.1, type := .rendering, label := p.2.name, path := some p.2.path, metadata := [] }) st
      scan.deepData.foldl (fun st p =>
        let pageId := p.1
        p.2.renderings.foldl (fun st rendering =>
          if mapHas scan.renderings rendering.renderingId then
            let st := addEdge st pageId rendering.renderingId .usesRendering
            let st :=
              if shouldIncludeType opts .placeholder then
                let phId := "ph:" ++ rendering.placeholder
                if !(mapHas st.nodes phId) then
                  addNode st { id := phId, type := .placeholder, label := rendering.placeholder, path := none, metadata := [] }
                else st
              else st
            let ds := rendering.dataSourceId.getD ""
            if ds ≠ "" && mapHas scan.items ds then
              addEdge st rendering.renderingId ds .datasource
            else st
          else st) st) st
    else st
  scan.deepData.foldl (fun st p =>
    let itemId := p.1
    p.2.fields.foldl (fun st field =>
      (extractGuids field.value).foldl (fun st guid =>
        let targetId := jsToUpper guid
        if mapHas scan.items targetId then addEdge st itemId targetId .references
        else if mapHas scan.media targetId then addEdge st itemId targetId .usesMedia
        else st) st) st) st

/-- BFS state for the centered build. -/
structure CenterSt where
  builder : BuilderSt
  visited : List String
  queue : List (String × Nat)

/-- Body processing one dequeued id in `buildFromCenter` (the source's loop
body after the visited check). Returns the new state; `maxDepth = 3`. -/
def centerProcess (scan : ScanResult) (opts : GraphOptions) (id : String) (depth : Nat)
    (st : CenterSt) : CenterSt :=
  let maxDepth := 3
  let st :=
    match mapGet scan.items id with
    | some item =>
      if shouldIncludeType opts .item then
        let b := addNode st.builder { id := item.id, type := .item, label := item.name, path := some item.path, metadata := [("templateName", .str item.templateName)] }
        let st := { st with builder := b }
        let st :=
          if shouldIncludeType opts .template then
            match mapGet scan.templates item.templateId with
            | some template =>
              let b := addNode st.builder { id := template.id, type := .template, label := template.name, path := some template.path, metadata := [] }
              { st with builder := addEdge b item.id template.id .instanceOf }
            | none => st
          else st
        let st :=
          if item.parentId ≠ "" && depth < maxDepth then
            match mapGet scan.items item.parentId with
            | some parent =>
              { st with queue := st.queue ++ [(parent.id, depth + 1)],
                        builder := addEdge st.builder item.parentId item.id .parentOf }
            | none => st
          else st
        let children := (mapGet scan.childrenMap id).getD []
        let st := children.foldl (fun st childId =>
          if depth < maxDepth then { st with queue := st.queue ++ [(childId, depth + 1)] }
          else st) st
        match mapGet scan.deepData id with
        | some deepData =>
          if shouldIncludeType opts .rendering then
            deepData.renderings.foldl (fun st rendering =>
              let st :=
                match mapGet scan.renderings rendering.renderingId with
                | some renderingDef =>
                  let b := addNode st.builder { id := renderingDef.id, type := .rendering, label := renderingDef.name, path := some renderingDef.path, metadata := [] }
                  let b := addEdge b item.id renderingDef.id .usesRendering
                  if shouldIncludeType opts .placeholder then
                    let phId := "ph:" ++ rendering.placeholder
                    let b := addNode b { id := phId, type := .placeholder, label := rendering.placeholder, path := none, metadata := [] }
                    { st with builder := addEdge b renderingDef.id phId .datasource }
                  else { st with builder := b }
                | none => st
              let ds := rendering.dataSourceId.getD ""
              if ds ≠ "" then
                match mapGet scan.items ds with
                | some dsItem =>
                  { st with queue := st.queue ++ [(dsItem.id, depth + 1)],
                            builder := addEdge st.builder rendering.renderingId dsItem.id .datasource }
                | none => st
              else st) st
          else st
        | none => st
      else st
    | none => st
  match mapGet scan.media id with
  | some media =>
    if shouldIncludeType opts .media then
      { st with builder := (addNode st.builder { id := media.id, type := .media, label := media.name, path := some media.path, metadata := [("size", .num media.size), ("extension", .str media.extension)] }) }
    else st
  | none => st

/-- The `while (queue.length > 0 && this.nodes.size < this.options.maxNodes)`
loop of `buildFromCenter`, fuelled. -/
def buildFromCenterLoop (scan : ScanResult) (opts : GraphOptions) :
    Nat → CenterSt → BuilderSt
  | 0, st => st.builder
  | fuel+1, st =>
    match st.queue with
    | [] => st.builder
    | (id, depth) :: rest =>
      if st.builder.nodes.length < opts.maxNodes then
        if st.visited.contains id then
          buildFromCenterLoop scan opts fuel { st with queue := rest }
        else
          let st := { st with queue := rest, visited := st.visited ++ [id] }
          buildFromCenterLoop scan opts fuel (centerProcess scan opts id depth st)
      else st.builder

/-- Fuel that dominates the BFS: pushes only happen while processing a
not-yet-visited item id, so the queue drains within this bound. -/
def centerFuel (scan : ScanResult) : Nat :=
  1 + scan.items.length + scan.media.length +
    (1 + scan.items.length) *
      (2 + (scan.childrenMap.map (fun p => p.2.length)).sum +
        (scan.deepData.map (fun p => p.2.renderings.length)).sum)

def buildFromCenter (scan : ScanResult) (opts : GraphOptions) (centerId : String) : BuilderSt :=
  buildFromCenterLoop scan opts (centerFuel scan)
    { builder := { nodes := [], edges := [] }, visited := [], queue := [(centerId, 0)] }

def typePriority : NodeType → Nat
  | .item => 5
  | .template => 4
  | .rendering => 3
  | .media => 2
  | .placeholder => 1

/-- The comparator of `prioritizeNodes` as a total boolean order: type
priority descending, then edge-degree descending. `Array.prototype.sort` is
stable (ES2019), which `List.mergeSort` models. -/
def prioritizeLe (conn : String → Nat) (a b : GraphNode) : Bool :=
  typePriority b.type < typePriority a.type ||
    (typePriority b.type == typePriority a.type && conn b.id ≤ conn a.id)

/-- Total edge degree used for ranking. -/
def connectionCount (edges : List GraphEdge) : List (String × Nat) :=
  edges.foldl (fun m e =>
    let m := mapSet m e.source ((mapGet m e.source).getD 0 + 1)
    mapSet m e.target ((mapGet m e.target).getD 0 + 1)) []

/-- `prioritizeNodes`: rank and keep the top `limit`. -/
def prioritizeNodes (edges : List GraphEdge) (nodes : List GraphNode) (limit : Nat) :
    List GraphNode :=
  let counts := connectionCount edges
  let conn := fun id => (mapGet counts id).getD 0
  (nodes.mergeSort (prioritizeLe conn)).take limit

def countNodeType (nodes : List GraphNode) (t : NodeType) : Nat :=
  nodes.countP (fun n => n.type == t)

def countEdgeType (edges : List GraphEdge) (t : EdgeType) : Nat :=
  edges.countP (fun e => e.type == t)

def calculateGraphStats (nodes : List GraphNode) (edges : List GraphEdge) : GraphStats :=
  { nodeCount := nodes.length, edgeCount := edges.length,
    itemNodes := countNodeType nodes .item, templateNodes := countNodeType nodes .template,
    mediaNodes := countNodeType nodes .media, renderingNodes := countNodeType nodes .rendering,
    placeholderNodes := countNodeType nodes .placeholder,
    parentOfEdges := countEdgeType edges .parentOf, childOfEdges := countEdgeType edges .childOf,
    instanceOfEdges := countEdgeType edges .instanceOf,
    inheritsEdges := countEdgeType edges .inherits,
    referencesEdges := countEdgeType edges .references,
    usesRenderingEdges := countEdgeType edges .usesRendering,
    datasourceEdges := countEdgeType edges .datasource,
    usesMediaEdges := countEdgeType edges .usesMedia }

/-- The node/edge collections before the size limit is applied. -/
def collectGraph (scan : ScanResult) (opts : GraphOptions) : BuilderSt :=
  if opts.centerOn ≠ "" then buildFromCenter scan opts opts.centerOn
  else buildFull scan opts

/-- `XRayGraphBuilder.build` / `buildKnowledgeGraph`. -/
def buildKnowledgeGraph (genIso : String) (scan : ScanResult) (opts : GraphOptions) :
    KnowledgeGraph :=
  let st := collectGraph scan opts
  let nodeArray := st.nodes.map (·.2)
  let limited :=
    if nodeArray.length > opts.maxNodes then
      let kept := prioritizeNodes st.edges nodeArray opts.maxNodes
      let nodeIds := kept.map (·.id)
      (kept, st.edges.filter (fun e => nodeIds.contains e.source && nodeIds.contains e.target))
    else (nodeArray, st.edges)
  { scanId := scan.scanId, generatedAt := genIso, nodes := limited.1,
    edges := if opts.includeEdges then limited.2 else [],
    stats := calculateGraphStats limited.1 limited.2 }

end Conduit

namespace Conduit

/-! ## Report generator (`reports` module) -/

inductive RecPriority where
  | high | medium | low
  deriving Repr, DecidableEq

inductive RecEffort where
  | low | medium | high
  deriving Repr, DecidableEq

structure Recommendation where
  priority : RecPriority
  title : String
  description : String
  impact : String
  effort : RecEffort
  affectedItems : Nat
  deriving Repr, DecidableEq

/-- The recommendation list in emission order: one fixed-table entry per
nonzero category count, pushed high tier first, then medium, then low. -/
def pushRecommendations (analysis : AnalysisResult) : List Recommendation :=
  let stats := analysis.stats
  (if stats.securityIssues > 0 then
    [{ priority := .high, title := "Fix Security Vulnerabilities",
       description := Nat.repr stats.securityIssues ++
         " items have overly permissive security settings that could expose content to unauthorized users.",
       impact := "Prevents unauthorized access and potential data breaches",
       effort := .medium, affectedItems := stats.securityIssues }]
  else []) ++
  (if stats.brokenLinks > 0 then
    [{ priority := .high, title := "Repair Broken Links",
       description := Nat.repr stats.brokenLinks ++
         " broken references found. These cause errors for visitors and hurt SEO.",
       impact := "Improves user experience and search rankings",
       effort := .medium, affectedItems := stats.brokenLinks }]
  else []) ++
  (if stats.largeMedia > 0 then
    [{ priority := .high, title := "Optimize Large Media Files",
       description := Nat.repr stats.largeMedia ++
         " media files exceed recommended size limits, slowing page loads.",
       impact := "Faster page loads, better Core Web Vitals",
       effort := .low, affectedItems := stats.largeMedia }]
  else []) ++
  (if stats.deeplyNested > 0 then
    [{ priority := .medium, title := "Flatten Content Structure",
       description := Nat.repr stats.deeplyNested ++
         " items are nested too deeply, causing performance issues in Sitecore.",
       impact := "Improved content editor performance",
       effort := .high, affectedItems := stats.deeplyNested }]
  else []) ++
  (if stats.orphanedItems > 0 then
    [{ priority := .medium, title := "Clean Up Orphaned Items",
       description := Nat.repr stats.orphanedItems ++
         " items have missing parents and may not be accessible.",
       impact := "Cleaner content tree, easier maintenance",
       effort := .low, affectedItems := stats.orphanedItems }]
  else []) ++
  (if stats.staleContent > 0 then
    [{ priority := .medium, title := "Review Stale Content",
       description := Nat.repr stats.staleContent ++
         " items haven\x27t been updated in over a year and may be outdated.",
       impact := "More accurate, trustworthy content",
       effort := .medium, affectedItems := stats.staleContent }]
  else []) ++
  (if stats.unusedTemplates > 0 then
    [{ priority := .low, title := "Remove Unused Templates",
       description := Nat.repr stats.unusedTemplates ++
         " templates have no content items using them.",
       impact := "Simpler template structure, easier maintenance",
       effort := .low, affectedItems := stats.unusedTemplates }]
  else []) ++
  (if stats.unusedRenderings > 0 then
    [{ priority := .low, title := "Remove Unused Renderings",
       description := Nat.repr stats.unusedRenderings ++
         " renderings are not used on any pages.",
       impact := "Cleaner rendering options for content editors",
       effort := .low, affectedItems := stats.unusedRenderings }]
  else []) ++
  (if stats.emptyContainers > 0 then
    [{ priority := .low, title := "Clean Up Empty Folders",
       description := Nat.repr stats.emptyContainers ++ " folders have no child items.",
       impact := "Cleaner content tree",
       effort := .low, affectedItems := stats.emptyContainers }]
  else []) ++
  (if stats.duplicates > 0 then
    [{ priority := .low, title := "Review Duplicate Items",
       description := Nat.repr stats.duplicates ++
         " potential duplicate items found with same name and template.",
       impact := "Avoid content confusion",
       effort := .medium, affectedItems := stats.duplicates }]
  else [])

/-- `priorityOrder = { high: 0, medium: 1, low: 2 }`. -/
def priorityOrder : RecPriority → Nat
  | .high => 0
  | .medium => 1
  | .low => 2

/-- The comparator `priorityOrder[a.priority] - priorityOrder[b.priority]`
as a boolean order; `Array.prototype.sort` is stable (ES2019), which
`List.mergeSort` models. -/
def recLe (a b : Recommendation) : Bool :=
  priorityOrder a.priority ≤ priorityOrder b.priority

/-- `generateRecommendations`. -/
def generateRecommendations (analysis : AnalysisResult) : List Recommendation :=
  (pushRecommendations analysis).mergeSort recLe

structure XRayReport where
  scanId : String
  generatedAt : String
  instanceUrl : String
  healthScore : ℤ
  healthGrade : HealthGrade
  scanDuration : Nat
  stats : AnalysisStats
  issues : List Issue
  recommendations : List Recommendation
  deriving Repr, DecidableEq

/-- `generateReport`. -/
def generateReport (genIso : String) (analysis : AnalysisResult) (instanceUrl : String)
    (scanDuration : Nat) : XRayReport :=
  { scanId := analysis.scanId, generatedAt := genIso, instanceUrl := instanceUrl,
    healthScore := analysis.healthScore, healthGrade := analysis.healthGrade,
    scanDuration := scanDuration, stats := analysis.stats, issues := analysis.issues,
    recommendations := generateRecommendations analysis }

/-- JS truthiness of an optional string argument. -/
def jsTruthy (o : Option String) : Bool := (o.getD "") ≠ ""

/-- `filterIssues(issues, category?, severity?)`. -/
def filterIssues (issues : List Issue) (category severity : Option String) : List Issue :=
  issues.filter (fun issue =>
    !(jsTruthy category && categoryStr issue.category != category.getD "") &&
    !(jsTruthy severity && severityStr issue.severity != severity.getD ""))

/-! ## The `xray_report` tool handler (`src/server.ts`) -/

/-- A `this.xrayScans` entry: the scan result plus the lazily computed,
cached analysis. -/
structure StoredScan where
  result : ScanResult
  analysis : Option AnalysisResult
  deriving Repr, DecidableEq

inductive XrayReportResponse where
  | notComplete (status : ScanStatus) (message : String)
  | report (healthScore : ℤ) (healthGrade : HealthGrade) (issues : List Issue)
      (stats : AnalysisStats)
  deriving Repr, DecidableEq

/-- The `case 'xray_report'` handler: look up the scan, refuse incomplete
scans, compute and cache the analysis on first use, optionally filter. The
returned store reflects the in-place mutation of `stored.analysis`. -/
def xrayReportHandler (env : AnalyzerEnv) (scans : List (String × StoredScan)) (scanId : String)
    (category severity : Option String) :
    List (String × StoredScan) × Except String XrayReportResponse :=
  match mapGet scans scanId with
  | none => (scans, .error ("Scan not found: " ++ scanId))
  | some stored =>
    if stored.result.status ≠ .complete then
      (scans, .ok (.notComplete stored.result.status "Scan not complete"))
    else
      let analysis :=
        match stored.analysis with
        | some a => a
        | none => analyzeXRayScan env stored.result
      let scans' :=
        match stored.analysis with
        | some _ => scans
        | none => mapSet scans scanId { stored with analysis := some analysis }
      let issues :=
        if jsTruthy category || jsTruthy severity then
          filterIssues analysis.issues category severity
        else analysis.issues
      (scans', .ok (.report analysis.healthScore analysis.healthGrade issues analysis.stats))

end Conduit

namespace Conduit

/-! ## Helper development: `Nat.repr` is injective

Needed for the distinctness of the issue ids `issue-1`, `issue-2`, ...
assigned by `addIssue`. -/

/-- Most-significant-first decimal digits, the recursion `Nat.toDigitsCore`
implements with fuel. -/
def decDigits (n : Nat) : List Char :=
  if n < 10 then [Nat.digitChar n]
  else decDigits (n / 10) ++ [Nat.digitChar (n % 10)]
  termination_by n
  decreasing_by exact Nat.div_lt_self (by omega) (by omega)

lemma toDigitsCore_append (b : Nat) :
    ∀ (fuel n : Nat) (ds : List Char),
      Nat.toDigitsCore b fuel n ds = Nat.toDigitsCore b fuel n [] ++ ds := by
  intro fuel
  induction fuel with
  | zero => intro n ds; simp [Nat.toDigitsCore]
  | succ fuel ih =>
    intro n ds
    simp only [Nat.toDigitsCore]
    by_cases h : n / b = 0
    · simp [h]
    · simp only [h, if_false]
      rw [ih (n / b) (Nat.digitChar (n % b) :: ds), ih (n / b) [Nat.digitChar (n % b)]]
      simp

lemma toDigitsCore_eq_decDigits :
    ∀ (fuel n : Nat), n < fuel → Nat.toDigitsCore 10 fuel n [] = decDigits n := by
  intro fuel
  induction fuel with
  | zero => intro n hn; omega
  | succ fuel ih =>
    intro n hn
    simp only [Nat.toDigitsCore]
    by_cases h : n / 10 = 0
    · have h10 : n < 10 := by
        rcases Nat.lt_or_ge n 10 with h' | h'
        · exact h'
        · exact absurd h (by
            have : n / 10 ≥ 1 := Nat.le_div_iff_mul_le (by omega) |>.mpr (by omega)
            omega)
      rw [decDigits]
      simp [h, h10, Nat.mod_eq_of_lt h10]
    · have h10 : ¬ n < 10 := by
        intro hlt
        exact h (Nat.div_eq_of_lt hlt)
      have hdivlt : n / 10 < n := Nat.div_lt_self (by omega) (by omega)
      have hdivfuel : n / 10 < fuel := by omega
      simp only [h, if_false]
      rw [toDigitsCore_append 10 fuel (n / 10)]
      rw [ih (n / 10) hdivfuel]
      conv_rhs => rw [decDigits]
      simp [h10]

lemma repr_eq_decDigits (n : Nat) : Nat.repr n = (decDigits n).asString := by
  show (Nat.toDigits 10 n).asString = (decDigits n).asString
  rw [Nat.toDigits, toDigitsCore_eq_decDigits (n + 1) n (Nat.lt_succ_self n)]

/-- Decimal value of a most-significant-first digit string. -/
def valDigits (l : List Char) : Nat :=
  l.foldl (fun acc c => acc * 10 + (c.toNat - 48)) 0

lemma digitChar_sub : ∀ d : Nat, d < 10 → (Nat.digitChar d).toNat - 48 = d := by decide

lemma valDigits_decDigits : ∀ n, valDigits (decDigits n) = n := by
  intro n
  induction n using Nat.strong_induction_on with
  | _ n ih =>
    by_cases h : n < 10
    · rw [decDigits]
      simp only [h, if_true]
      show 0 * 10 + ((Nat.digitChar n).toNat - 48) = n
      rw [digitChar_sub n h]
      omega
    · rw [decDigits]
      simp only [h, if_false]
      show valDigits (decDigits (n / 10) ++ [Nat.digitChar (n % 10)]) = n
      unfold valDigits
      rw [List.foldl_append]
      have hval : (decDigits (n / 10)).foldl (fun acc c => acc * 10 + (c.toNat - 48)) 0 =
          n / 10 := ih (n / 10) (Nat.div_lt_self (by omega) (by omega))
      rw [hval]
      show n / 10 * 10 + ((Nat.digitChar (n % 10)).toNat - 48) = n
      rw [digitChar_sub (n % 10) (Nat.mod_lt n (by omega))]
      omega

lemma natRepr_injective {m n : Nat} (h : Nat.repr m = Nat.repr n) : m = n := by
  rw [repr_eq_decDigits, repr_eq_decDigits] at h
  have hdata : decDigits m = decDigits n := by
    have := congrArg String.data h
    simpa [List.asString] using this
  have := congrArg valDigits hdata
  rwa [valDigits_decDigits, valDigits_decDigits] at this

lemma string_append_left_cancel {s t u : String} (h : s ++ t = s ++ u) : t = u := by
  apply String.ext
  have hd := congrArg String.data h
  simp only [String.data_append] at hd
  exact List.append_cancel_left hd

end Conduit

namespace Conduit

/-! ## Structure of `assignIds` -/

/-- Forget the id of an issue. -/
def coreOf (i : Issue) : IssueCore :=
  { severity := i.severity, category := i.category, title := i.title,
    description := i.description, itemId := i.itemId, itemPath := i.itemPath,
    recommendation := i.recommendation, metadata := i.metadata }

lemma assignIds_length : ∀ (k : Nat) (l : List IssueCore), (assignIds k l).length = l.length := by
  intro k l
  induction l generalizing k with
  | nil => rfl
  | cons c cs ih => simp [assignIds, ih]

lemma assignIds_map_core : ∀ (k : Nat) (l : List IssueCore),
    (assignIds k l).map coreOf = l := by
  intro k l
  induction l generalizing k with
  | nil => rfl
  | cons c cs ih => simp [assignIds, coreOf, ih]

lemma assignIds_map_id : ∀ (k : Nat) (l : List IssueCore),
    (assignIds k l).map (fun i => i.id) =
      (List.range l.length).map (fun i => "issue-" ++ Nat.repr (k + i + 1)) := by
  intro k l
  induction l generalizing k with
  | nil => rfl
  | cons c cs ih =>
    simp only [assignIds, List.map_cons, List.length_cons, List.range_succ_eq_map,
      List.map_map, ih (k + 1)]
    refine List.cons_eq_cons.mpr ⟨by simp, ?_⟩
    apply List.map_congr_left
    intro i _
    simp only [Function.comp]
    congr 2
    omega

lemma countP_assignIds (k : Nat) (l : List IssueCore) (p : IssueCore → Bool) :
    (assignIds k l).countP (fun i => p (coreOf i)) = l.countP p := by
  have h := congrArg (List.countP p) (assignIds_map_core k l)
  rw [List.countP_map] at h
  exact h

/-! ## Claim C10 -/

/-- **C10**: within one `AnalysisResult` the issue ids are `issue-1`,
`issue-2`, ... in emission order, hence pairwise distinct. -/
theorem analyzer_issue_ids_sequential_and_distinct (env : AnalyzerEnv) (s : ScanResult) :
    ((analyzeXRayScan env s).issues.map (fun i => i.id) =
      (List.range (analyzeXRayScan env s).issues.length).map
        (fun n => "issue-" ++ Nat.repr (n + 1))) ∧
    ((analyzeXRayScan env s).issues.map (fun i => i.id)).Nodup := by
  have hissues : (analyzeXRayScan env s).issues = assignIds 0 (analyzeIssueCores env s) := rfl
  have hids := assignIds_map_id 0 (analyzeIssueCores env s)
  have hinj : Function.Injective (fun i : Nat => "issue-" ++ Nat.repr (0 + i + 1)) := by
    intro a b h
    have h2 := string_append_left_cancel h
    have h3 := natRepr_injective h2
    omega
  constructor
  · rw [hissues, hids, assignIds_length]
    apply List.map_congr_left
    intro i _
    congr 2
    omega
  · rw [hissues, hids]
    exact List.Nodup.map hinj (List.nodup_range _)

end Conduit

namespace Conduit

/-! ## Claim C1 -/

/-- Modelled from the spec\x27s words (claim C1): the raw health-score
expression `100 − min(5·critical,40) − min(2·warning,30) − min(0.5·info,10)
+ 5 per zero-category bonus`. -/
def claimedRawScore (critical warning info : Nat)
    (zeroOrphans zeroBrokenLinks zeroUnusedTemplates zeroSecurity : Bool) : ℚ :=
  100 - min (5 * (critical : ℚ)) 40 - min (2 * (warning : ℚ)) 30
    - min ((1/2) * (info : ℚ)) 10
    + (if zeroOrphans then 5 else 0) + (if zeroBrokenLinks then 5 else 0)
    + (if zeroUnusedTemplates then 5 else 0) + (if zeroSecurity then 5 else 0)

/-- Modelled from the spec\x27s words (claim C1): the claimed health score,
clamped to `[0, 100]` with no rounding step. -/
def claimedHealthScore (critical warning info : Nat)
    (zeroOrphans zeroBrokenLinks zeroUnusedTemplates zeroSecurity : Bool) : ℚ :=
  max 0 (min 100 (claimedRawScore critical warning info
    zeroOrphans zeroBrokenLinks zeroUnusedTemplates zeroSecurity))

lemma countP_assignIds_severity (k : Nat) (l : List IssueCore) (sev : IssueSeverity) :
    (assignIds k l).countP (fun i => i.severity == sev) =
      l.countP (fun c => c.severity == sev) := by
  induction l generalizing k with
  | nil => rfl
  | cons c cs ih => simp [assignIds, List.countP_cons, ih]

lemma countP_assignIds_category (k : Nat) (l : List IssueCore) (cat : IssueCategory) :
    (assignIds k l).countP (fun i => i.category == cat) =
      l.countP (fun c => c.category == cat) := by
  induction l generalizing k with
  | nil => rfl
  | cons c cs ih => simp [assignIds, List.countP_cons, ih]

lemma calculateHealthScore_eq (l : List IssueCore) (st : AnalysisStats) :
    calculateHealthScore l st =
      max 0 (min 100 (jsRound (claimedRawScore
        (l.countP (fun i => i.severity == .critical))
        (l.countP (fun i => i.severity == .warning))
        (l.countP (fun i => i.severity == .info))
        (st.orphanedItems == 0) (st.brokenLinks == 0) (st.unusedTemplates == 0)
        (st.securityIssues == 0)))) := by
  unfold calculateHealthScore claimedRawScore
  dsimp only
  simp only [beq_iff_eq, mul_comm]
  split_ifs <;> (first | rfl | (congr 3 ; ring))

lemma getHealthGrade_spec (score : ℤ) :
    (getHealthGrade score = .A ↔ 90 ≤ score) ∧
    (getHealthGrade score = .B ↔ 80 ≤ score ∧ score < 90) ∧
    (getHealthGrade score = .C ↔ 70 ≤ score ∧ score < 80) ∧
    (getHealthGrade score = .D ↔ 60 ≤ score ∧ score < 70) ∧
    (getHealthGrade score = .F ↔ score < 60) := by
  unfold getHealthGrade
  split_ifs <;> refine ⟨?_, ?_, ?_, ?_, ?_⟩ <;> constructor <;> intro h <;>
    first
      | rfl
      | omega
      | (exfalso; revert h; simp)

end Conduit

namespace Conduit

/-- Environment with no parseable dates, valid JSON, epoch zero: the host
behaviour is irrelevant to the C1 counterexample scan. -/
def c1Env : AnalyzerEnv :=
  { nowMs := 0, nowIso := "", dateParseMs := fun _ => none, jsonValid := fun _ => true }

def emptyProgress : ScanProgress :=
  { phase := .complete, itemsScanned := 0, totalEstimate := 0, currentPath := "",
    startedAt := "", errors := [] }

/-- A completed scan with all collections empty. -/
def emptyScanBase : ScanResult :=
  { scanId := "scan-0", status := .complete, config := DEFAULT_SCAN_CONFIG,
    progress := emptyProgress, items := [], templates := [], media := [], renderings := [],
    childrenMap := [], templateUsage := [], renderingUsage := [], references := [],
    deepData := [], startedAt := "", completedAt := none }

def c1Deep (i : Nat) : String × DeepItemData :=
  ("c" ++ Nat.repr i, { id := "", fields := [], renderings := [], security := some "Everyone:write" })

/-- Counterexample scan for C1: eight deep items whose security string grants
`Everyone` `:write` (eight critical security issues) and one with the
complex-rule markers (one info security issue). -/
def c1Scan : ScanResult :=
  { emptyScanBase with deepData := (List.range 8).map c1Deep ++
      [("i1", { id := "", fields := [], renderings := [], security := some "ar||pd|" })] }

/-- **C1, counterexample**: on `c1Scan` the analyzer has 8 critical and 1
info issues and all three bonus categories except security empty, so the
claimed (unrounded) score is `74.5`; the code rounds and returns `75`, so the
health score does not equal the claimed expression. -/
theorem healthScore_claim_counterexample :
    ((analyzeXRayScan c1Env c1Scan).issues.countP (fun i => i.severity == .critical) = 8) ∧
    ((analyzeXRayScan c1Env c1Scan).issues.countP (fun i => i.severity == .warning) = 0) ∧
    ((analyzeXRayScan c1Env c1Scan).issues.countP (fun i => i.severity == .info) = 1) ∧
    ((analyzeXRayScan c1Env c1Scan).issues.countP (fun i => i.category == .orphan) = 0) ∧
    ((analyzeXRayScan c1Env c1Scan).issues.countP (fun i => i.category == .brokenLink) = 0) ∧
    ((analyzeXRayScan c1Env c1Scan).issues.countP (fun i => i.category == .unusedTemplate) = 0) ∧
    ((analyzeXRayScan c1Env c1Scan).issues.countP (fun i => i.category == .security) = 9) ∧
    (claimedHealthScore 8 0 1 true true true false = 149/2) ∧
    ((analyzeXRayScan c1Env c1Scan).healthScore = 75) ∧
    (((analyzeXRayScan c1Env c1Scan).healthScore : ℚ) ≠
      claimedHealthScore 8 0 1 true true true false) := by
  have hcounts : ((analyzeXRayScan c1Env c1Scan).issues.countP
        (fun i => i.severity == .critical) = 8) ∧
      ((analyzeXRayScan c1Env c1Scan).issues.countP (fun i => i.severity == .warning) = 0) ∧
      ((analyzeXRayScan c1Env c1Scan).issues.countP (fun i => i.severity == .info) = 1) ∧
      ((analyzeXRayScan c1Env c1Scan).issues.countP (fun i => i.category == .orphan) = 0) ∧
      ((analyzeXRayScan c1Env c1Scan).issues.countP (fun i => i.category == .brokenLink) = 0) ∧
      ((analyzeXRayScan c1Env c1Scan).issues.countP
        (fun i => i.category == .unusedTemplate) = 0) ∧
      ((analyzeXRayScan c1Env c1Scan).issues.countP (fun i => i.category == .security) = 9) := by
    decide
  have hraw : claimedRawScore 8 0 1 true true true false = 149/2 := by
    unfold claimedRawScore
    simp only [min_def]
    norm_num
  have hclaim : claimedHealthScore 8 0 1 true true true false = 149/2 := by
    unfold claimedHealthScore
    rw [hraw]
    simp only [min_def, max_def]
    norm_num
  have hstats : (((calculateStats c1Scan (analyzeIssueCores c1Env c1Scan)).orphanedItems == 0) =
        true) ∧
      (((calculateStats c1Scan (analyzeIssueCores c1Env c1Scan)).brokenLinks == 0) = true) ∧
      (((calculateStats c1Scan (analyzeIssueCores c1Env c1Scan)).unusedTemplates == 0) = true) ∧
      (((calculateStats c1Scan (analyzeIssueCores c1Env c1Scan)).securityIssues == 0) =
        false) := by
    decide
  have hcores : ((analyzeIssueCores c1Env c1Scan).countP (fun i => i.severity == .critical) = 8) ∧
      ((analyzeIssueCores c1Env c1Scan).countP (fun i => i.severity == .warning) = 0) ∧
      ((analyzeIssueCores c1Env c1Scan).countP (fun i => i.severity == .info) = 1) := by
    decide
  have hscore : (analyzeXRayScan c1Env c1Scan).healthScore = 75 := by
    have hdef : (analyzeXRayScan c1Env c1Scan).healthScore =
        calculateHealthScore (analyzeIssueCores c1Env c1Scan)
          (calculateStats c1Scan (analyzeIssueCores c1Env c1Scan)) := rfl
    rw [hdef, calculateHealthScore_eq, hcores.1, hcores.2.1, hcores.2.2,
      hstats.1, hstats.2.1, hstats.2.2.1, hstats.2.2.2, hraw]
    unfold jsRound
    have h75 : (149/2 + (1:ℚ)/2 : ℚ) = ((75 : ℤ) : ℚ) := by norm_num
    rw [h75, Int.floor_intCast]
    simp [min_def, max_def]
  refine ⟨hcounts.1, hcounts.2.1, hcounts.2.2.1, hcounts.2.2.2.1, hcounts.2.2.2.2.1,
    hcounts.2.2.2.2.2.1, hcounts.2.2.2.2.2.2, hclaim, hscore, ?_⟩
  rw [hscore, hclaim]
  norm_num

/-- **C1** (amended): for every completed scan the analyzer\x27s health score
equals the claimed expression with the `Math.round` step the source applies
(nearest integer, halves towards +∞) before clamping to `[0,100]`, and the
health grade boundaries are exactly as claimed (A ↔ ≥90, B ↔ [80,90),
C ↔ [70,80), D ↔ [60,70), F otherwise). -/
theorem healthScore_rounded_formula_and_grade (env : AnalyzerEnv) (s : ScanResult) :
    ((analyzeXRayScan env s).healthScore =
      max 0 (min 100 (jsRound (claimedRawScore
        ((analyzeXRayScan env s).issues.countP (fun i => i.severity == .critical))
        ((analyzeXRayScan env s).issues.countP (fun i => i.severity == .warning))
        ((analyzeXRayScan env s).issues.countP (fun i => i.severity == .info))
        ((analyzeXRayScan env s).issues.countP (fun i => i.category == .orphan) == 0)
        ((analyzeXRayScan env s).issues.countP (fun i => i.category == .brokenLink) == 0)
        ((analyzeXRayScan env s).issues.countP (fun i => i.category == .unusedTemplate) == 0)
        ((analyzeXRayScan env s).issues.countP (fun i => i.category == .security) == 0))))) ∧
    ((analyzeXRayScan env s).healthGrade = .A ↔ 90 ≤ (analyzeXRayScan env s).healthScore) ∧
    ((analyzeXRayScan env s).healthGrade = .B ↔
      80 ≤ (analyzeXRayScan env s).healthScore ∧ (analyzeXRayScan env s).healthScore < 90) ∧
    ((analyzeXRayScan env s).healthGrade = .C ↔
      70 ≤ (analyzeXRayScan env s).healthScore ∧ (analyzeXRayScan env s).healthScore < 80) ∧
    ((analyzeXRayScan env s).healthGrade = .D ↔
      60 ≤ (analyzeXRayScan env s).healthScore ∧ (analyzeXRayScan env s).healthScore < 70) ∧
    ((analyzeXRayScan env s).healthGrade = .F ↔ (analyzeXRayScan env s).healthScore < 60) := by
  have hissues : (analyzeXRayScan env s).issues = assignIds 0 (analyzeIssueCores env s) := rfl
  have hscore : (analyzeXRayScan env s).healthScore =
      calculateHealthScore (analyzeIssueCores env s)
        (calculateStats s (analyzeIssueCores env s)) := rfl
  have hgrade : (analyzeXRayScan env s).healthGrade =
      getHealthGrade (analyzeXRayScan env s).healthScore := rfl
  constructor
  · rw [hissues, countP_assignIds_severity, countP_assignIds_severity,
      countP_assignIds_severity, countP_assignIds_category, countP_assignIds_category,
      countP_assignIds_category, countP_assignIds_category, hscore, calculateHealthScore_eq]
    rfl
  · rw [hgrade]
    exact getHealthGrade_spec (analyzeXRayScan env s).healthScore

end Conduit

namespace Conduit

/-! ## Each detector emits only its own category -/

lemma orphanIssuesFor_cat (s : ScanResult) (p : String × IndexedItem) :
    ∀ i ∈ orphanIssuesFor s p, i.category = .orphan := by
  intro i hi
  unfold orphanIssuesFor at hi
  simp only [List.mem_append, List.mem_ite_nil_right, List.mem_singleton] at hi
  rcases hi with ⟨-, -, rfl⟩ | hi
  · rfl
  · split at hi
    · simp at hi
    · simp only [List.mem_ite_nil_right, List.mem_singleton] at hi
      obtain ⟨-, rfl⟩ := hi
      rfl

lemma detectOrphans_cat (s : ScanResult) : ∀ i ∈ detectOrphans s, i.category = .orphan := by
  intro i hi
  unfold detectOrphans at hi
  rw [List.mem_flatMap] at hi
  obtain ⟨p, -, hi⟩ := hi
  exact orphanIssuesFor_cat s p i hi

lemma detectUnusedTemplates_cat (s : ScanResult) :
    ∀ i ∈ detectUnusedTemplates s, i.category = .unusedTemplate := by
  intro i hi
  unfold detectUnusedTemplates at hi
  simp only [List.mem_flatMap, List.mem_ite_nil_right, List.mem_singleton] at hi
  obtain ⟨p, -, -, rfl⟩ := hi
  rfl

lemma detectUnusedRenderings_cat (s : ScanResult) :
    ∀ i ∈ detectUnusedRenderings s, i.category = .unusedRendering := by
  intro i hi
  unfold detectUnusedRenderings at hi
  simp only [List.mem_flatMap, List.mem_ite_nil_right, List.mem_singleton] at hi
  obtain ⟨p, -, -, rfl⟩ := hi
  rfl

lemma detectBrokenLinks_cat (s : ScanResult) :
    ∀ i ∈ detectBrokenLinks s, i.category = .brokenLink := by
  intro i hi
  unfold detectBrokenLinks at hi
  simp only [List.mem_flatMap, List.mem_append, List.mem_ite_nil_right,
    List.mem_singleton] at hi
  obtain ⟨p, -, hi⟩ := hi
  rcases hi with ⟨f, -, g, -, -, rfl⟩ | ⟨r, -, -, rfl⟩ <;> rfl

lemma detectDuplicates_cat (s : ScanResult) :
    ∀ i ∈ detectDuplicates s, i.category = .duplicate := by
  intro i hi
  unfold detectDuplicates at hi
  simp only [List.mem_flatMap, List.mem_ite_nil_right, List.mem_singleton] at hi
  obtain ⟨p, -, -, rfl⟩ := hi
  rfl

lemma detectSecurityIssues_cat (s : ScanResult) :
    ∀ i ∈ detectSecurityIssues s, i.category = .security := by
  intro i hi
  unfold detectSecurityIssues at hi
  simp only [List.mem_flatMap] at hi
  obtain ⟨p, -, hi⟩ := hi
  split at hi
  · simp at hi
  · split at hi
    · simp at hi
    · simp only [List.mem_append, List.mem_ite_nil_right, List.mem_singleton] at hi
      rcases hi with ⟨-, rfl⟩ | ⟨-, rfl⟩ <;> rfl

lemma detectDeepNesting_cat (s : ScanResult) :
    ∀ i ∈ detectDeepNesting s, i.category = .deepNesting := by
  intro i hi
  unfold detectDeepNesting at hi
  simp only [List.mem_flatMap] at hi
  obtain ⟨p, -, hi⟩ := hi
  split at hi
  · simp only [List.mem_singleton] at hi
    subst hi; rfl
  · split at hi
    · simp only [List.mem_singleton] at hi
      subst hi; rfl
    · simp at hi

lemma largeMediaIssuesFor_cat (p : String × IndexedMedia) :
    ∀ i ∈ largeMediaIssuesFor p, i.category = .largeMedia := by
  intro i hi
  unfold largeMediaIssuesFor at hi
  dsimp only at hi
  split at hi <;> (try split at hi) <;>
    first
      | (simp only [List.mem_singleton] at hi; subst hi; rfl)
      | simp at hi

lemma detectLargeMedia_cat (s : ScanResult) :
    ∀ i ∈ detectLargeMedia s, i.category = .largeMedia := by
  intro i hi
  unfold detectLargeMedia at hi
  rw [List.mem_flatMap] at hi
  obtain ⟨p, -, hi⟩ := hi
  exact largeMediaIssuesFor_cat p i hi

lemma detectStaleContent_cat (env : AnalyzerEnv) (s : ScanResult) :
    ∀ i ∈ detectStaleContent env s, i.category = .staleContent := by
  intro i hi
  unfold detectStaleContent at hi
  simp only [List.mem_flatMap] at hi
  obtain ⟨p, -, hi⟩ := hi
  split at hi
  · simp at hi
  · split at hi
    · simp at hi
    · split at hi
      · simp only [List.mem_singleton] at hi
        subst hi; rfl
      · split at hi
        · simp only [List.mem_singleton] at hi
          subst hi; rfl
        · simp at hi

lemma detectCircularReferences_cat (s : ScanResult) :
    ∀ i ∈ detectCircularReferences s, i.category = .circularReference := by
  intro i hi
  unfold detectCircularReferences at hi
  simp only [List.mem_map] at hi
  obtain ⟨c, -, rfl⟩ := hi
  rfl

lemma detectEmptyContainers_cat (s : ScanResult) :
    ∀ i ∈ detectEmptyContainers s, i.category = .emptyContainer := by
  intro i hi
  unfold detectEmptyContainers at hi
  simp only [List.mem_flatMap, List.mem_ite_nil_right, List.mem_singleton] at hi
  obtain ⟨p, -, -, rfl⟩ := hi
  rfl

lemma detectInvalidFields_cat (env : AnalyzerEnv) (s : ScanResult) :
    ∀ i ∈ detectInvalidFields env s, i.category = .invalidField := by
  intro i hi
  unfold detectInvalidFields at hi
  simp only [List.mem_flatMap, List.mem_append] at hi
  obtain ⟨p, -, f, -, hi⟩ := hi
  rcases hi with (hi | hi) | hi <;>
    (split at hi <;> (try split at hi) <;>
      first
        | (simp only [List.mem_singleton] at hi; subst hi; rfl)
        | simp at hi)

end Conduit

namespace Conduit

lemma countP_cat_zero {l : List IssueCore} {c c' : IssueCategory}
    (h : ∀ i ∈ l, i.category = c) (hne : c ≠ c') :
    l.countP (fun i => i.category == c') = 0 :=
  List.countP_eq_zero.mpr (fun a ha => by simp [h a ha, hne])

/-! ## Claim C5 -/

/-- The single issue emitted for the three-cycle `A → B → C → A`. -/
def threeCycleIssue (s : ScanResult) (A B C : String) : IssueCore :=
  { severity := .warning, category := .circularReference,
    title := "Circular reference detected",
    description := "Items reference each other in a cycle: " ++
      String.intercalate " → "
        ([A, B, C].map (fun id => jsOrOpt ((mapGet s.items id).map (·.name)) id)) ++ ".",
    itemId := none, itemPath := none,
    recommendation := some "Review and break the circular dependency.",
    metadata := [("cycle", .strs [A, B, C]),
      ("itemNames", .strs ([A, B, C].map (fun id =>
        jsOrOpt ((mapGet s.items id).map (·.name)) id)))] }

lemma detectCircularReferences_three_cycle (s : ScanResult) (A B C : String)
    (hAB : A ≠ B) (hAC : A ≠ C) (hBC : B ≠ C)
    (hg : buildRefGraph s.deepData = [(A, [B]), (B, [C]), (C, [A])]) :
    detectCircularReferences s = [threeCycleIssue s A B C] := by
  have fAB : (A == B) = false := beq_eq_false_iff_ne.mpr hAB
  have fBA : (B == A) = false := beq_eq_false_iff_ne.mpr (Ne.symm hAB)
  have fAC : (A == C) = false := beq_eq_false_iff_ne.mpr hAC
  have fCA : (C == A) = false := beq_eq_false_iff_ne.mpr (Ne.symm hAC)
  have fBC : (B == C) = false := beq_eq_false_iff_ne.mpr hBC
  have fCB : (C == B) = false := beq_eq_false_iff_ne.mpr (Ne.symm hBC)
  unfold detectCircularReferences threeCycleIssue
  rw [hg]
  dsimp only
  have hfuel : dfsFuel [(A, [B]), (B, [C]), (C, [A])] = 7 := by
    simp [dfsFuel]
  rw [hfuel]
  have nBA : ¬ (B = A) := Ne.symm hAB
  have nCA : ¬ (C = A) := Ne.symm hAC
  have nCB : ¬ (C = B) := Ne.symm hBC
  simp [dfsVisit, mapGet, List.find?, fAB, fBA, fAC, fCA, fBC, fCB,
    hAB, hAC, hBC, nBA, nCA, nCB]

/-- **C5**: when the deep-scan reference graph is exactly the three-node
cycle `A → B → C → A`, the analyzer emits exactly one circular-reference
issue, and that issue is a warning whose cycle metadata names all three
items. -/
theorem circular_three_cycle_single_issue (env : AnalyzerEnv) (s : ScanResult) (A B C : String)
    (hAB : A ≠ B) (hAC : A ≠ C) (hBC : B ≠ C)
    (hg : buildRefGraph s.deepData = [(A, [B]), (B, [C]), (C, [A])]) :
    ((analyzeXRayScan env s).issues.countP (fun i => i.category == .circularReference) = 1) ∧
    (∀ i ∈ (analyzeXRayScan env s).issues, i.category = .circularReference →
      i.severity = .warning ∧
      i.metadata = [("cycle", .strs [A, B, C]),
        ("itemNames", .strs ([A, B, C].map (fun id =>
          jsOrOpt ((mapGet s.items id).map (·.name)) id)))]) := by
  have hdet := detectCircularReferences_three_cycle s A B C hAB hAC hBC hg
  have hissues : (analyzeXRayScan env s).issues = assignIds 0 (analyzeIssueCores env s) := rfl
  constructor
  · rw [hissues, countP_assignIds_category]
    unfold analyzeIssueCores
    simp only [List.countP_append]
    rw [countP_cat_zero (detectOrphans_cat s) (by decide),
      countP_cat_zero (detectUnusedTemplates_cat s) (by decide),
      countP_cat_zero (detectUnusedRenderings_cat s) (by decide),
      countP_cat_zero (detectBrokenLinks_cat s) (by decide),
      countP_cat_zero (detectDuplicates_cat s) (by decide),
      countP_cat_zero (detectSecurityIssues_cat s) (by decide),
      countP_cat_zero (detectDeepNesting_cat s) (by decide),
      countP_cat_zero (detectLargeMedia_cat s) (by decide),
      countP_cat_zero (detectStaleContent_cat env s) (by decide),
      countP_cat_zero (detectEmptyContainers_cat s) (by decide),
      countP_cat_zero (detectInvalidFields_cat env s) (by decide),
      hdet]
    rfl
  · intro i hi hcat
    have hcore : coreOf i ∈ analyzeIssueCores env s := by
      have : (analyzeXRayScan env s).issues.map coreOf = analyzeIssueCores env s :=
        assignIds_map_core 0 _
      rw [← this]
      exact List.mem_map_of_mem coreOf hi
    have hcatcore : (coreOf i).category = .circularReference := hcat
    unfold analyzeIssueCores at hcore
    simp only [List.mem_append] at hcore
    rcases hcore with ((((((((((h | h) | h) | h) | h) | h) | h) | h) | h) | h) | h) | h
    · exact absurd (detectOrphans_cat s _ h ▸ hcatcore) (by decide)
    · exact absurd (detectUnusedTemplates_cat s _ h ▸ hcatcore) (by decide)
    · exact absurd (detectUnusedRenderings_cat s _ h ▸ hcatcore) (by decide)
    · exact absurd (detectBrokenLinks_cat s _ h ▸ hcatcore) (by decide)
    · exact absurd (detectDuplicates_cat s _ h ▸ hcatcore) (by decide)
    · exact absurd (detectSecurityIssues_cat s _ h ▸ hcatcore) (by decide)
    · exact absurd (detectDeepNesting_cat s _ h ▸ hcatcore) (by decide)
    · exact absurd (detectLargeMedia_cat s _ h ▸ hcatcore) (by decide)
    · exact absurd (detectStaleContent_cat env s _ h ▸ hcatcore) (by decide)
    · rw [hdet] at h
      simp only [List.mem_singleton] at h
      have hsev : (coreOf i).severity = .warning := by rw [h]; rfl
      have hmeta : (coreOf i).metadata = [("cycle", .strs [A, B, C]),
          ("itemNames", .strs ([A, B, C].map (fun id =>
            jsOrOpt ((mapGet s.items id).map (·.name)) id)))] := by rw [h]; rfl
      exact ⟨hsev, hmeta⟩
    · exact absurd (detectEmptyContainers_cat s _ h ▸ hcatcore) (by decide)
    · exact absurd (detectInvalidFields_cat env s _ h ▸ hcatcore) (by decide)

def c5A : String := "\x7bAAAAAAAA-AAAA-AAAA-AAAA-AAAAAAAAAAAA\x7d"
def c5B : String := "\x7bBBBBBBBB-BBBB-BBBB-BBBB-BBBBBBBBBBBB\x7d"
def c5C : String := "\x7bCCCCCCCC-CCCC-CCCC-CCCC-CCCCCCCCCCCC\x7d"

def c5Deep (v : String) : DeepItemData :=
  { id := "", fields := [{ name := "link", value := v, type := none }],
    renderings := [], security := none }

/-- A scan whose deep data is exactly the cycle `c5A → c5B → c5C → c5A`. -/
def c5Scan : ScanResult :=
  { emptyScanBase with deepData := [(c5A, c5Deep c5B), (c5B, c5Deep c5C), (c5C, c5Deep c5A)] }

/-- Witness for C5 at a concrete three-item cycle. -/
theorem circular_three_cycle_witness :
    (c5A ≠ c5B ∧ c5A ≠ c5C ∧ c5B ≠ c5C ∧
      buildRefGraph c5Scan.deepData = [(c5A, [c5B]), (c5B, [c5C]), (c5C, [c5A])]) ∧
    (((analyzeXRayScan c1Env c5Scan).issues.countP
        (fun i => i.category == .circularReference) = 1) ∧
      (∀ i ∈ (analyzeXRayScan c1Env c5Scan).issues, i.category = .circularReference →
        i.severity = .warning ∧
        i.metadata = [("cycle", .strs [c5A, c5B, c5C]),
          ("itemNames", .strs ([c5A, c5B, c5C].map (fun id =>
            jsOrOpt ((mapGet c5Scan.items id).map (·.name)) id)))])) :=
  ⟨⟨by decide, by decide, by decide, by decide⟩,
    circular_three_cycle_single_issue c1Env c5Scan c5A c5B c5C
      (by decide) (by decide) (by decide) (by decide)⟩

end Conduit

namespace Conduit

/-! ## Claim C6 -/

lemma countP_catAnd_zero {l : List IssueCore} {c c' : IssueCategory} (q : IssueCore → Bool)
    (h : ∀ i ∈ l, i.category = c) (hne : c ≠ c') :
    l.countP (fun i => i.category == c' && q i) = 0 :=
  List.countP_eq_zero.mpr (fun a ha => by simp [h a ha, hne])

lemma countP_assignIds_catItem (k : Nat) (l : List IssueCore) (cat : IssueCategory)
    (oid : Option String) :
    (assignIds k l).countP (fun i => i.category == cat && i.itemId == oid) =
      l.countP (fun c => c.category == cat && c.itemId == oid) := by
  induction l generalizing k with
  | nil => rfl
  | cons c cs ih => simp [assignIds, List.countP_cons, ih]

lemma largeMediaIssuesFor_itemId (p : String × IndexedMedia) :
    ∀ i ∈ largeMediaIssuesFor p, i.itemId = some p.1 := by
  intro i hi
  unfold largeMediaIssuesFor at hi
  dsimp only at hi
  split at hi <;> (try split at hi) <;>
    first
      | (simp only [List.mem_singleton] at hi; subst hi; rfl)
      | simp at hi

/-- The warning issue literal algorithm 8 emits for a `(5MB, 20MB]` file. -/
def largeMediaWarnIssue (p : String × IndexedMedia) : IssueCore :=
  { severity := .warning, category := .largeMedia,
    title := "Large file: " ++ p.2.name,
    description := "Media file is " ++ jsToFixed1 ((p.2.size : ℚ) / (MB : ℚ)) ++ "MB.",
    itemId := some p.1, itemPath := some p.2.path,
    recommendation := some "Consider compressing this file.",
    metadata := [("sizeBytes", .num p.2.size), ("sizeMB", .num ((p.2.size : ℚ) / (MB : ℚ)))] }

/-- The critical issue literal algorithm 8 emits for a `> 20MB` file. -/
def largeMediaCritIssue (p : String × IndexedMedia) : IssueCore :=
  { severity := .critical, category := .largeMedia,
    title := "Very large file: " ++ p.2.name,
    description := "Media file is " ++ jsToFixed1 ((p.2.size : ℚ) / (MB : ℚ)) ++
      "MB. Files over 20MB significantly impact performance.",
    itemId := some p.1, itemPath := some p.2.path,
    recommendation := some "Compress or move to external storage (CDN, blob storage).",
    metadata := [("sizeBytes", .num p.2.size), ("sizeMB", .num ((p.2.size : ℚ) / (MB : ℚ)))] }

lemma largeMediaIssuesFor_small (p : String × IndexedMedia) (h : p.2.size ≤ 5 * MB) :
    largeMediaIssuesFor p = [] := by
  have hMB : MB = 1048576 := rfl
  unfold largeMediaIssuesFor
  dsimp only
  rw [if_neg (by rw [hMB] at h ⊢; omega), if_neg (by rw [hMB] at h ⊢; omega)]

lemma largeMediaIssuesFor_warn (p : String × IndexedMedia) (h1 : 5 * MB < p.2.size)
    (h2 : p.2.size ≤ 20 * MB) : largeMediaIssuesFor p = [largeMediaWarnIssue p] := by
  have hMB : MB = 1048576 := rfl
  unfold largeMediaIssuesFor largeMediaWarnIssue
  dsimp only
  rw [if_neg (by rw [hMB] at h2 ⊢; omega), if_pos (by rw [hMB] at h1 ⊢; omega)]

lemma largeMediaIssuesFor_crit (p : String × IndexedMedia) (h : 20 * MB < p.2.size) :
    largeMediaIssuesFor p = [largeMediaCritIssue p] := by
  have hMB : MB = 1048576 := rfl
  unfold largeMediaIssuesFor largeMediaCritIssue
  dsimp only
  rw [if_pos (by rw [hMB] at h ⊢; omega)]

lemma countP_flatMap_zero {α : Type} (f : α → List IssueCore) (P : IssueCore → Bool)
    (l : List α) (h : ∀ a ∈ l, (f a).countP P = 0) : (l.flatMap f).countP P = 0 := by
  induction l with
  | nil => rfl
  | cons b rest ih =>
    rw [List.flatMap_cons, List.countP_append, h b (List.mem_cons_self b rest),
      ih (fun a ha => h a (List.mem_cons_of_mem b ha))]

lemma countP_flatMap_key {α : Type} (f : String × α → List IssueCore) (P : IssueCore → Bool)
    (l : List (String × α)) (p0 : String × α)
    (hnodup : (l.map (fun p => p.1)).Nodup) (hmem : p0 ∈ l)
    (h0 : ∀ q ∈ l, q.1 ≠ p0.1 → (f q).countP P = 0) :
    (l.flatMap f).countP P = (f p0).countP P := by
  induction l with
  | nil => cases hmem
  | cons b rest ih =>
    rw [List.flatMap_cons, List.countP_append]
    rw [List.map_cons, List.nodup_cons] at hnodup
    rcases List.mem_cons.mp hmem with rfl | hmem
    · have hzero : (rest.flatMap f).countP P = 0 := by
        apply countP_flatMap_zero
        intro q hq
        apply h0 q (List.mem_cons_of_mem p0 hq)
        intro hk
        exact hnodup.1 (hk ▸ List.mem_map_of_mem (fun p => p.1) hq)
      omega
    · have hb : b.1 ≠ p0.1 := by
        intro hk
        exact hnodup.1 (hk ▸ List.mem_map_of_mem (fun p => p.1) hmem)
      rw [h0 b (List.mem_cons_self b rest) hb]
      rw [ih hnodup.2 hmem (fun q hq hne => h0 q (List.mem_cons_of_mem b hq) hne)]
      omega

/-- **C6**: per media entry, no large-media issue at ≤ 5MB, exactly one
warning in (5MB, 20MB], exactly one critical above 20MB (thresholds
exclusive). -/
theorem large_media_thresholds (env : AnalyzerEnv) (s : ScanResult) (id : String)
    (m : IndexedMedia) (hnodup : (s.media.map (fun p => p.1)).Nodup)
    (hmem : (id, m) ∈ s.media) :
    (m.size ≤ 5 * MB →
      (analyzeXRayScan env s).issues.countP
        (fun i => i.category == .largeMedia && i.itemId == some id) = 0) ∧
    (5 * MB < m.size → m.size ≤ 20 * MB →
      ((analyzeXRayScan env s).issues.countP
          (fun i => i.category == .largeMedia && i.itemId == some id) = 1 ∧
        ∀ i ∈ (analyzeXRayScan env s).issues,
          (i.category == .largeMedia && i.itemId == some id) = true →
            i.severity = .warning)) ∧
    (20 * MB < m.size →
      ((analyzeXRayScan env s).issues.countP
          (fun i => i.category == .largeMedia && i.itemId == some id) = 1 ∧
        ∀ i ∈ (analyzeXRayScan env s).issues,
          (i.category == .largeMedia && i.itemId == some id) = true →
            i.severity = .critical)) := by
  have hissues : (analyzeXRayScan env s).issues = assignIds 0 (analyzeIssueCores env s) := rfl
  have hcount : ∀ P : IssueCore → Bool,
      (analyzeIssueCores env s).countP
        (fun i => i.category == .largeMedia && i.itemId == some id) =
      (detectLargeMedia s).countP
        (fun i => i.category == .largeMedia && i.itemId == some id) := by
    intro _
    unfold analyzeIssueCores
    simp only [List.countP_append]
    rw [countP_catAnd_zero _ (detectOrphans_cat s) (by decide),
      countP_catAnd_zero _ (detectUnusedTemplates_cat s) (by decide),
      countP_catAnd_zero _ (detectUnusedRenderings_cat s) (by decide),
      countP_catAnd_zero _ (detectBrokenLinks_cat s) (by decide),
      countP_catAnd_zero _ (detectDuplicates_cat s) (by decide),
      countP_catAnd_zero _ (detectSecurityIssues_cat s) (by decide),
      countP_catAnd_zero _ (detectDeepNesting_cat s) (by decide),
      countP_catAnd_zero _ (detectStaleContent_cat env s) (by decide),
      countP_catAnd_zero _ (detectCircularReferences_cat s) (by decide),
      countP_catAnd_zero _ (detectEmptyContainers_cat s) (by decide),
      countP_catAnd_zero _ (detectInvalidFields_cat env s) (by decide)]
    omega
  have hkey : (detectLargeMedia s).countP
      (fun i => i.category == .largeMedia && i.itemId == some id) =
      (largeMediaIssuesFor (id, m)).countP
        (fun i => i.category == .largeMedia && i.itemId == some id) := by
    unfold detectLargeMedia
    apply countP_flatMap_key _ _ _ (id, m) hnodup hmem
    intro q hq hne
    apply List.countP_eq_zero.mpr
    intro a ha
    have hitem := largeMediaIssuesFor_itemId q a ha
    simp [hitem, hne]
  have hmain : (analyzeXRayScan env s).issues.countP
      (fun i => i.category == .largeMedia && i.itemId == some id) =
      (largeMediaIssuesFor (id, m)).countP
        (fun i => i.category == .largeMedia && i.itemId == some id) := by
    rw [hissues, countP_assignIds_catItem, hcount (fun _ => true), hkey]
  have hmemPart : ∀ i ∈ (analyzeXRayScan env s).issues,
      (i.category == .largeMedia && i.itemId == some id) = true →
      coreOf i ∈ largeMediaIssuesFor (id, m) := by
    intro i hi hP
    simp only [Bool.and_eq_true, beq_iff_eq] at hP
    have hcore : coreOf i ∈ analyzeIssueCores env s := by
      have h2 : (analyzeXRayScan env s).issues.map coreOf = analyzeIssueCores env s :=
        assignIds_map_core 0 _
      rw [← h2]
      exact List.mem_map_of_mem coreOf hi
    have hcatcore : (coreOf i).category = .largeMedia := hP.1
    unfold analyzeIssueCores at hcore
    simp only [List.mem_append] at hcore
    rcases hcore with ((((((((((h | h) | h) | h) | h) | h) | h) | h) | h) | h) | h) | h
    · exact absurd (detectOrphans_cat s _ h ▸ hcatcore) (by decide)
    · exact absurd (detectUnusedTemplates_cat s _ h ▸ hcatcore) (by decide)
    · exact absurd (detectUnusedRenderings_cat s _ h ▸ hcatcore) (by decide)
    · exact absurd (detectBrokenLinks_cat s _ h ▸ hcatcore) (by decide)
    · exact absurd (detectDuplicates_cat s _ h ▸ hcatcore) (by decide)
    · exact absurd (detectSecurityIssues_cat s _ h ▸ hcatcore) (by decide)
    · exact absurd (detectDeepNesting_cat s _ h ▸ hcatcore) (by decide)
    · -- detectLargeMedia
      unfold detectLargeMedia at h
      rw [List.mem_flatMap] at h
      obtain ⟨q, hq, hin⟩ := h
      have hqid : q.1 = id := by
        have := largeMediaIssuesFor_itemId q _ hin
        have h3 : (coreOf i).itemId = some id := hP.2
        rw [this] at h3
        exact Option.some_injective _ h3
      have hqeq : q = (id, m) := by
        apply List.inj_on_of_nodup_map hnodup hq hmem
        simpa using hqid
      rw [hqeq] at hin
      exact hin
    · exact absurd (detectStaleContent_cat env s _ h ▸ hcatcore) (by decide)
    · exact absurd (detectCircularReferences_cat s _ h ▸ hcatcore) (by decide)
    · exact absurd (detectEmptyContainers_cat s _ h ▸ hcatcore) (by decide)
    · exact absurd (detectInvalidFields_cat env s _ h ▸ hcatcore) (by decide)
  refine ⟨?_, ?_, ?_⟩
  · intro hsmall
    rw [hmain, largeMediaIssuesFor_small (id, m) hsmall]
    rfl
  · intro h1 h2
    constructor
    · rw [hmain, largeMediaIssuesFor_warn (id, m) h1 h2]
      simp [largeMediaWarnIssue]
    · intro i hi hP
      have := hmemPart i hi hP
      rw [largeMediaIssuesFor_warn (id, m) h1 h2] at this
      simp only [List.mem_singleton] at this
      have hsev : (coreOf i).severity = .warning := by rw [this]; rfl
      exact hsev
  · intro h1
    constructor
    · rw [hmain, largeMediaIssuesFor_crit (id, m) h1]
      simp [largeMediaCritIssue]
    · intro i hi hP
      have := hmemPart i hi hP
      rw [largeMediaIssuesFor_crit (id, m) h1] at this
      simp only [List.mem_singleton] at this
      have hsev : (coreOf i).severity = .critical := by rw [this]; rfl
      exact hsev

end Conduit

namespace Conduit

/-! ## Claim C8 -/

lemma exists_assignIds_of_mem (k : Nat) (l : List IssueCore) {c : IssueCore} (h : c ∈ l) :
    ∃ i ∈ assignIds k l, coreOf i = c := by
  have h2 : c ∈ (assignIds k l).map coreOf := by
    rw [assignIds_map_core]
    exact h
  simpa [List.mem_map] using h2

/-- Counterexample item for C8: parent id is set and absent, but the path
has a single segment, so the derived parent path is empty and the source
emits no orphan warning. -/
def c8Item : IndexedItem :=
  { id := "A", name := "home", path := "/home", templateId := "t1", templateName := "page",
    parentId := "P", hasChildren := false, updated := "", language := "en" }

def c8Scan : ScanResult := { emptyScanBase with items := [("A", c8Item)] }

/-- **C8, counterexample**: `c8Item` has a non-empty `parentId` that is not a
key of the items map, yet the analyzer emits no warning orphan issue for it
(the guard also requires the parent path derived from `item.path` to be
non-empty, and `"/home"` has none). -/
theorem orphan_claim_counterexample :
    (c8Item.parentId ≠ "" ∧ mapHas c8Scan.items c8Item.parentId = false ∧
      ("A", c8Item) ∈ c8Scan.items) ∧
    ¬ ∃ i ∈ (analyzeXRayScan c1Env c8Scan).issues,
        i.category = .orphan ∧ i.severity = .warning ∧ i.itemId = some "A" := by
  constructor
  · exact ⟨by decide, by decide, by decide⟩
  · decide

/-- The orphan warning literal for one item entry. -/
def orphanWarnIssue (p : String × IndexedItem) : IssueCore :=
  { severity := .warning, category := .orphan,
    title := "Orphaned item: " ++ p.2.name,
    description := "Item\x27s parent (" ++ p.2.parentId ++
      ") was not found in the scanned content.",
    itemId := some p.1, itemPath := some p.2.path,
    recommendation := some "Verify the parent item exists or move this item to a valid location.",
    metadata := [] }

/-- **C8** (amended): for every item whose `parentId` is non-empty and absent
from the items map, *and whose path yields a non-empty parent path* (more
than one segment), the analyzer emits a warning orphan issue for that item. -/
theorem orphan_missing_parent_warning (env : AnalyzerEnv) (s : ScanResult) (id : String)
    (item : IndexedItem) (hmem : (id, item) ∈ s.items)
    (hparent : item.parentId ≠ "")
    (habsent : mapHas s.items item.parentId = false)
    (hpath : String.intercalate "/" ((jsSplitChar item.path '/').dropLast) ≠ "") :
    ∃ i ∈ (analyzeXRayScan env s).issues,
      i.category = .orphan ∧ i.severity = .warning ∧ i.itemId = some id := by
  have hw : orphanWarnIssue (id, item) ∈ orphanIssuesFor s (id, item) := by
    unfold orphanIssuesFor orphanWarnIssue
    dsimp only
    rw [if_pos, if_pos]
    · exact List.mem_append_left _ (List.mem_singleton.mpr rfl)
    · simp [hparent, hpath]
    · simp [hparent, habsent]
  have hcores : orphanWarnIssue (id, item) ∈ analyzeIssueCores env s := by
    unfold analyzeIssueCores
    refine List.mem_append_left _ (List.mem_append_left _ ?_)
    refine List.mem_append_left _ (List.mem_append_left _ ?_)
    refine List.mem_append_left _ (List.mem_append_left _ ?_)
    refine List.mem_append_left _ (List.mem_append_left _ ?_)
    refine List.mem_append_left _ (List.mem_append_left _ ?_)
    refine List.mem_append_left _ ?_
    unfold detectOrphans
    rw [List.mem_flatMap]
    exact ⟨(id, item), hmem, hw⟩
  obtain ⟨i, hi, hcore⟩ := exists_assignIds_of_mem 0 (analyzeIssueCores env s) hcores
  refine ⟨i, hi, ?_, ?_, ?_⟩
  · show (coreOf i).category = .orphan
    rw [hcore]; rfl
  · show (coreOf i).severity = .warning
    rw [hcore]; rfl
  · show (coreOf i).itemId = some id
    rw [hcore]; rfl

def c8WItem : IndexedItem :=
  { id := "A", name := "home", path := "/site/home", templateId := "t1", templateName := "page",
    parentId := "P", hasChildren := false, updated := "", language := "en" }

def c8WScan : ScanResult := { emptyScanBase with items := [("A", c8WItem)] }

/-- Witness for the amended C8. -/
theorem orphan_missing_parent_warning_witness :
    (("A", c8WItem) ∈ c8WScan.items ∧ c8WItem.parentId ≠ "" ∧
      mapHas c8WScan.items c8WItem.parentId = false ∧
      String.intercalate "/" ((jsSplitChar c8WItem.path '/').dropLast) ≠ "") ∧
    ∃ i ∈ (analyzeXRayScan c1Env c8WScan).issues,
      i.category = .orphan ∧ i.severity = .warning ∧ i.itemId = some "A" :=
  ⟨⟨by decide, by decide, by decide, by decide⟩,
    orphan_missing_parent_warning c1Env c8WScan "A" c8WItem
      (by decide) (by decide) (by decide) (by decide)⟩

def c6Media : IndexedMedia :=
  { id := "M1", name := "big.jpg", path := "/media/big.jpg", size := 5 * 1024 * 1024 + 1,
    extension := "jpg" }

def c6Scan : ScanResult := { emptyScanBase with media := [("M1", c6Media)] }

/-- Witness for C6 at the `5MB + 1` boundary. -/
theorem large_media_thresholds_witness :
    ((c6Scan.media.map (fun p => p.1)).Nodup ∧ ("M1", c6Media) ∈ c6Scan.media ∧
      5 * MB < c6Media.size ∧ c6Media.size ≤ 20 * MB) ∧
    ((analyzeXRayScan c1Env c6Scan).issues.countP
        (fun i => i.category == .largeMedia && i.itemId == some "M1") = 1 ∧
      ∀ i ∈ (analyzeXRayScan c1Env c6Scan).issues,
        (i.category == .largeMedia && i.itemId == some "M1") = true →
          i.severity = .warning) :=
  ⟨⟨by decide, by decide, by decide, by decide⟩,
    (large_media_thresholds c1Env c6Scan "M1" c6Media (by decide) (by decide)).2.1
      (by decide) (by decide)⟩

end Conduit


namespace Conduit

/-! ## Claim C7 -/

lemma mem_ite_single {c : Prop} [Decidable c] {r x : Recommendation}
    (hx : x ∈ (if c then [r] else [])) : x = r := by
  split at hx <;> simp_all

lemma pairwise_ite_single {c : Prop} [Decidable c] {r : Recommendation}
    {R : Recommendation → Recommendation → Prop} : List.Pairwise R (if c then [r] else []) := by
  split <;> simp

lemma countP_ite_single {c : Prop} [Decidable c] {r : Recommendation}
    (p : Recommendation → Bool) :
    (if c then [r] else []).countP p = if c then (if p r then 1 else 0) else 0 := by
  split <;> simp [List.countP_cons]

lemma pOrder_le_two (p : RecPriority) : priorityOrder p ≤ 2 := by cases p <;> decide

lemma pairwise_le_append (k : Nat) {l₁ l₂ : List Recommendation}
    (h1 : ∀ r ∈ l₁, priorityOrder r.priority ≤ k)
    (h2 : ∀ r ∈ l₂, k ≤ priorityOrder r.priority)
    (p1 : l₁.Pairwise (fun x y => recLe x y))
    (p2 : l₂.Pairwise (fun x y => recLe x y)) :
    (l₁ ++ l₂).Pairwise (fun x y => recLe x y) := by
  refine List.pairwise_append.mpr ⟨p1, p2, ?_⟩
  intro u hu v hv
  have hu2 := h1 u hu
  have hv2 := h2 v hv
  simp only [recLe, decide_eq_true_eq]
  omega

lemma pushRecommendations_sorted (a : AnalysisResult) :
    (pushRecommendations a).Pairwise (fun x y => recLe x y) := by
  unfold pushRecommendations
  refine pairwise_le_append 2 (fun r _ => pOrder_le_two r.priority) ?_ ?_ pairwise_ite_single
  · intro v hv; rw [mem_ite_single hv]; simp [priorityOrder]
  refine pairwise_le_append 2 (fun r _ => pOrder_le_two r.priority) ?_ ?_ pairwise_ite_single
  · intro v hv; rw [mem_ite_single hv]; simp [priorityOrder]
  refine pairwise_le_append 2 (fun r _ => pOrder_le_two r.priority) ?_ ?_ pairwise_ite_single
  · intro v hv; rw [mem_ite_single hv]; simp [priorityOrder]
  refine pairwise_le_append 2 (fun r _ => pOrder_le_two r.priority) ?_ ?_ pairwise_ite_single
  · intro v hv; rw [mem_ite_single hv]; simp [priorityOrder]
  refine pairwise_le_append 1 ?_ ?_ ?_ pairwise_ite_single
  · intro x hx
    simp only [List.mem_append, or_assoc] at hx
    rcases hx with h | h | h | h | h <;> (rw [mem_ite_single h]; simp [priorityOrder])
  · intro v hv; rw [mem_ite_single hv]; simp [priorityOrder]
  refine pairwise_le_append 1 ?_ ?_ ?_ pairwise_ite_single
  · intro x hx
    simp only [List.mem_append, or_assoc] at hx
    rcases hx with h | h | h | h <;> (rw [mem_ite_single h]; simp [priorityOrder])
  · intro v hv; rw [mem_ite_single hv]; simp [priorityOrder]
  refine pairwise_le_append 1 ?_ ?_ ?_ pairwise_ite_single
  · intro x hx
    simp only [List.mem_append, or_assoc] at hx
    rcases hx with h | h | h <;> (rw [mem_ite_single h]; simp [priorityOrder])
  · intro v hv; rw [mem_ite_single hv]; simp [priorityOrder]
  refine pairwise_le_append 0 ?_ ?_ ?_ pairwise_ite_single
  · intro x hx
    simp only [List.mem_append, or_assoc] at hx
    rcases hx with h | h <;> (rw [mem_ite_single h]; simp [priorityOrder])
  · intro v hv; rw [mem_ite_single hv]; simp [priorityOrder]
  refine pairwise_le_append 0 ?_ ?_ pairwise_ite_single pairwise_ite_single
  · intro x hx; rw [mem_ite_single hx]; simp [priorityOrder]
  · intro v hv; rw [mem_ite_single hv]; simp [priorityOrder]

/-- **C7**: the report generator emits exactly one recommendation per
nonzero category, with the specified priority, and the returned list is
sorted high before medium before low; because `Array.prototype.sort` is
stable and the rules are pushed tier by tier, the sorted list equals the
emission-ordered list (stable order inside each tier). -/
theorem recommendations_table_and_sorted (a : AnalysisResult) :
    (generateRecommendations a = pushRecommendations a) ∧
    ((generateRecommendations a).Pairwise
      (fun x y => priorityOrder x.priority ≤ priorityOrder y.priority)) ∧
    ((generateRecommendations a).countP (fun r => r.title == "Fix Security Vulnerabilities") =
      if a.stats.securityIssues > 0 then 1 else 0) ∧
    (∀ r ∈ generateRecommendations a, r.title = "Fix Security Vulnerabilities" → r.priority = .high) ∧
    ((generateRecommendations a).countP (fun r => r.title == "Repair Broken Links") =
      if a.stats.brokenLinks > 0 then 1 else 0) ∧
    (∀ r ∈ generateRecommendations a, r.title = "Repair Broken Links" → r.priority = .high) ∧
    ((generateRecommendations a).countP (fun r => r.title == "Optimize Large Media Files") =
      if a.stats.largeMedia > 0 then 1 else 0) ∧
    (∀ r ∈ generateRecommendations a, r.title = "Optimize Large Media Files" → r.priority = .high) ∧
    ((generateRecommendations a).countP (fun r => r.title == "Flatten Content Structure") =
      if a.stats.deeplyNested > 0 then 1 else 0) ∧
    (∀ r ∈ generateRecommendations a, r.title = "Flatten Content Structure" → r.priority = .medium) ∧
    ((generateRecommendations a).countP (fun r => r.title == "Clean Up Orphaned Items") =
      if a.stats.orphanedItems > 0 then 1 else 0) ∧
    (∀ r ∈ generateRecommendations a, r.title = "Clean Up Orphaned Items" → r.priority = .medium) ∧
    ((generateRecommendations a).countP (fun r => r.title == "Review Stale Content") =
      if a.stats.staleContent > 0 then 1 else 0) ∧
    (∀ r ∈ generateRecommendations a, r.title = "Review Stale Content" → r.priority = .medium) ∧
    ((generateRecommendations a).countP (fun r => r.title == "Remove Unused Templates") =
      if a.stats.unusedTemplates > 0 then 1 else 0) ∧
    (∀ r ∈ generateRecommendations a, r.title = "Remove Unused Templates" → r.priority = .low) ∧
    ((generateRecommendations a).countP (fun r => r.title == "Remove Unused Renderings") =
      if a.stats.unusedRenderings > 0 then 1 else 0) ∧
    (∀ r ∈ generateRecommendations a, r.title = "Remove Unused Renderings" → r.priority = .low) ∧
    ((generateRecommendations a).countP (fun r => r.title == "Clean Up Empty Folders") =
      if a.stats.emptyContainers > 0 then 1 else 0) ∧
    (∀ r ∈ generateRecommendations a, r.title = "Clean Up Empty Folders" → r.priority = .low) ∧
    ((generateRecommendations a).countP (fun r => r.title == "Review Duplicate Items") =
      if a.stats.duplicates > 0 then 1 else 0) ∧
    (∀ r ∈ generateRecommendations a, r.title = "Review Duplicate Items" → r.priority = .low) := by
  have h1 : generateRecommendations a = pushRecommendations a := by
    unfold generateRecommendations
    exact List.mergeSort_of_sorted (pushRecommendations_sorted a)
  refine ⟨h1, ?_, ?_, ?_, ?_, ?_, ?_, ?_, ?_, ?_, ?_, ?_, ?_, ?_, ?_, ?_, ?_, ?_, ?_, ?_, ?_, ?_⟩
  · rw [h1]
    exact (pushRecommendations_sorted a).imp
      (fun h => by simpa [recLe, decide_eq_true_eq] using h)
  · rw [h1]
    unfold pushRecommendations
    simp only [List.countP_append, countP_ite_single]
    simp
  · intro r hr ht
    rw [h1] at hr
    unfold pushRecommendations at hr
    simp only [List.mem_append, or_assoc] at hr
    rcases hr with h | h | h | h | h | h | h | h | h | h <;>
      (rw [mem_ite_single h] at ht ⊢ <;> first | rfl | simp at ht)
  · rw [h1]
    unfold pushRecommendations
    simp only [List.countP_append, countP_ite_single]
    simp
  · intro r hr ht
    rw [h1] at hr
    unfold pushRecommendations at hr
    simp only [List.mem_append, or_assoc] at hr
    rcases hr with h | h | h | h | h | h | h | h | h | h <;>
      (rw [mem_ite_single h] at ht ⊢ <;> first | rfl | simp at ht)
  · rw [h1]
    unfold pushRecommendations
    simp only [List.countP_append, countP_ite_single]
    simp
  · intro r hr ht
    rw [h1] at hr
    unfold pushRecommendations at hr
    simp only [List.mem_append, or_assoc] at hr
    rcases hr with h | h | h | h | h | h | h | h | h | h <;>
      (rw [mem_ite_single h] at ht ⊢ <;> first | rfl | simp at ht)
  · rw [h1]
    unfold pushRecommendations
    simp only [List.countP_append, countP_ite_single]
    simp
  · intro r hr ht
    rw [h1] at hr
    unfold pushRecommendations at hr
    simp only [List.mem_append, or_assoc] at hr
    rcases hr with h | h | h | h | h | h | h | h | h | h <;>
      (rw [mem_ite_single h] at ht ⊢ <;> first | rfl | simp at ht)
  · rw [h1]
    unfold pushRecommendations
    simp only [List.countP_append, countP_ite_single]
    simp
  · intro r hr ht
    rw [h1] at hr
    unfold pushRecommendations at hr
    simp only [List.mem_append, or_assoc] at hr
    rcases hr with h | h | h | h | h | h | h | h | h | h <;>
      (rw [mem_ite_single h] at ht ⊢ <;> first | rfl | simp at ht)
  · rw [h1]
    unfold pushRecommendations
    simp only [List.countP_append, countP_ite_single]
    simp
  · intro r hr ht
    rw [h1] at hr
    unfold pushRecommendations at hr
    simp only [List.mem_append, or_assoc] at hr
    rcases hr with h | h | h | h | h | h | h | h | h | h <;>
      (rw [mem_ite_single h] at ht ⊢ <;> first | rfl | simp at ht)
  · rw [h1]
    unfold pushRecommendations
    simp only [List.countP_append, countP_ite_single]
    simp
  · intro r hr ht
    rw [h1] at hr
    unfold pushRecommendations at hr
    simp only [List.mem_append, or_assoc] at hr
    rcases hr with h | h | h | h | h | h | h | h | h | h <;>
      (rw [mem_ite_single h] at ht ⊢ <;> first | rfl | simp at ht)
  · rw [h1]
    unfold pushRecommendations
    simp only [List.countP_append, countP_ite_single]
    simp
  · intro r hr ht
    rw [h1] at hr
    unfold pushRecommendations at hr
    simp only [List.mem_append, or_assoc] at hr
    rcases hr with h | h | h | h | h | h | h | h | h | h <;>
      (rw [mem_ite_single h] at ht ⊢ <;> first | rfl | simp at ht)
  · rw [h1]
    unfold pushRecommendations
    simp only [List.countP_append, countP_ite_single]
    simp
  · intro r hr ht
    rw [h1] at hr
    unfold pushRecommendations at hr
    simp only [List.mem_append, or_assoc] at hr
    rcases hr with h | h | h | h | h | h | h | h | h | h <;>
      (rw [mem_ite_single h] at ht ⊢ <;> first | rfl | simp at ht)
  · rw [h1]
    unfold pushRecommendations
    simp only [List.countP_append, countP_ite_single]
    simp
  · intro r hr ht
    rw [h1] at hr
    unfold pushRecommendations at hr
    simp only [List.mem_append, or_assoc] at hr
    rcases hr with h | h | h | h | h | h | h | h | h | h <;>
      (rw [mem_ite_single h] at ht ⊢ <;> first | rfl | simp at ht)

/-- Witness for C7: the C1 counterexample scan has nine security issues, so
exactly one "Fix Security Vulnerabilities" recommendation is produced. -/
theorem recommendations_table_witness :
    ((analyzeXRayScan c1Env c1Scan).stats.securityIssues > 0) ∧
    (generateRecommendations (analyzeXRayScan c1Env c1Scan)).countP
      (fun r => r.title == "Fix Security Vulnerabilities") = 1 := by
  have h := (recommendations_table_and_sorted (analyzeXRayScan c1Env c1Scan)).2.2.1
  have hsec : (analyzeXRayScan c1Env c1Scan).stats.securityIssues = 9 := by decide
  constructor
  · rw [hsec]
    omega
  · rw [h, hsec]
    rfl

end Conduit

namespace Conduit

/-! ## Claim C9 -/

lemma mapGet_mapSet_self {α : Type} (m : List (String × α)) (k : String) (v : α) :
    mapGet (mapSet m k v) k = some v := by
  induction m with
  | nil => simp [mapSet, mapGet, List.find?]
  | cons p rest ih =>
    unfold mapSet
    by_cases h : p.1 == k
    · simp [mapGet, List.find?, h]
    · simp only [h, if_false]
      unfold mapGet at ih ⊢
      simp [List.find?, h, ih]

/-- **C9**: `xray_report` is idempotent for a completed scan: a second call
with the same scan id and filters returns the identical response and leaves
the store unchanged, because the analysis is computed once and cached. -/
theorem xray_report_idempotent (env1 env2 : AnalyzerEnv) (scans : List (String × StoredScan))
    (scanId : String) (category severity : Option String) (stored : StoredScan)
    (hfound : mapGet scans scanId = some stored)
    (hcomplete : stored.result.status = .complete) :
    (xrayReportHandler env2 (xrayReportHandler env1 scans scanId category severity).1
        scanId category severity).2 =
      (xrayReportHandler env1 scans scanId category severity).2 ∧
    (xrayReportHandler env2 (xrayReportHandler env1 scans scanId category severity).1
        scanId category severity).1 =
      (xrayReportHandler env1 scans scanId category severity).1 := by
  cases hA : stored.analysis with
  | some a =>
    have e1 : xrayReportHandler env1 scans scanId category severity =
        (scans, .ok (.report a.healthScore a.healthGrade
          (if jsTruthy category || jsTruthy severity then
            filterIssues a.issues category severity else a.issues) a.stats)) := by
      unfold xrayReportHandler
      rw [hfound]
      simp [hcomplete, hA]
    have e2 : xrayReportHandler env2 scans scanId category severity =
        (scans, .ok (.report a.healthScore a.healthGrade
          (if jsTruthy category || jsTruthy severity then
            filterIssues a.issues category severity else a.issues) a.stats)) := by
      unfold xrayReportHandler
      rw [hfound]
      simp [hcomplete, hA]
    rw [e1, e2]
    exact ⟨rfl, rfl⟩
  | none =>
    have e1 : xrayReportHandler env1 scans scanId category severity =
        (mapSet scans scanId
          { stored with analysis := some (analyzeXRayScan env1 stored.result) },
         .ok (.report (analyzeXRayScan env1 stored.result).healthScore
          (analyzeXRayScan env1 stored.result).healthGrade
          (if jsTruthy category || jsTruthy severity then
            filterIssues (analyzeXRayScan env1 stored.result).issues category severity
          else (analyzeXRayScan env1 stored.result).issues)
          (analyzeXRayScan env1 stored.result).stats)) := by
      unfold xrayReportHandler
      rw [hfound]
      simp [hcomplete, hA]
    have e2 : xrayReportHandler env2
        (mapSet scans scanId
          { stored with analysis := some (analyzeXRayScan env1 stored.result) })
        scanId category severity =
        (mapSet scans scanId
          { stored with analysis := some (analyzeXRayScan env1 stored.result) },
         .ok (.report (analyzeXRayScan env1 stored.result).healthScore
          (analyzeXRayScan env1 stored.result).healthGrade
          (if jsTruthy category || jsTruthy severity then
            filterIssues (analyzeXRayScan env1 stored.result).issues category severity
          else (analyzeXRayScan env1 stored.result).issues)
          (analyzeXRayScan env1 stored.result).stats)) := by
      unfold xrayReportHandler
      rw [mapGet_mapSet_self]
      simp [hcomplete]
    rw [e1]
    rw [e2]
    exact ⟨rfl, rfl⟩

def c9Stored : StoredScan := { result := emptyScanBase, analysis := none }

def c9Store : List (String × StoredScan) := [("s1", c9Stored)]

/-- Witness for C9 on a one-entry store with an uncached completed scan. -/
theorem xray_report_idempotent_witness :
    (mapGet c9Store "s1" = some c9Stored ∧ c9Stored.result.status = .complete) ∧
    ((xrayReportHandler c1Env (xrayReportHandler c1Env c9Store "s1" none none).1
        "s1" none none).2 =
      (xrayReportHandler c1Env c9Store "s1" none none).2 ∧
    (xrayReportHandler c1Env (xrayReportHandler c1Env c9Store "s1" none none).1
        "s1" none none).1 =
      (xrayReportHandler c1Env c9Store "s1" none none).1) :=
  ⟨⟨by decide, by decide⟩,
    xray_report_idempotent c1Env c1Env c9Store "s1" none none c9Stored
      (by decide) (by decide)⟩

end Conduit

namespace Conduit

/-! ## Claim C4 -/

lemma exists_node_of_contains {kept : List GraphNode} {s : String}
    (h : (kept.map (fun n => n.id)).contains s = true) : ∃ n ∈ kept, n.id = s := by
  rw [List.contains_iff_exists_mem_beq] at h
  obtain ⟨x, hx, hbeq⟩ := h
  obtain ⟨n, hn, rfl⟩ := List.mem_map.mp hx
  exact ⟨n, hn, (eq_of_beq hbeq).symm⟩

/-- **C4**: the returned knowledge graph never exceeds the node budget;
when more candidates were collected than the budget allows, exactly
`maxNodes` nodes are returned and every remaining edge has both endpoints
among the retained nodes. -/
theorem graph_node_budget (genIso : String) (scan : ScanResult) (opts : GraphOptions) :
    ((buildKnowledgeGraph genIso scan opts).nodes.length ≤ opts.maxNodes) ∧
    ((collectGraph scan opts).nodes.length > opts.maxNodes →
      (buildKnowledgeGraph genIso scan opts).nodes.length = opts.maxNodes) ∧
    ((collectGraph scan opts).nodes.length > opts.maxNodes →
      ∀ e ∈ (buildKnowledgeGraph genIso scan opts).edges,
        (∃ n ∈ (buildKnowledgeGraph genIso scan opts).nodes, n.id = e.source) ∧
        (∃ n ∈ (buildKnowledgeGraph genIso scan opts).nodes, n.id = e.target)) := by
  unfold buildKnowledgeGraph
  dsimp only
  by_cases h : ((collectGraph scan opts).nodes.map (fun p => p.2)).length > opts.maxNodes
  · rw [if_pos h]
    have hlen : (prioritizeNodes (collectGraph scan opts).edges
        ((collectGraph scan opts).nodes.map (fun p => p.2)) opts.maxNodes).length =
        opts.maxNodes := by
      unfold prioritizeNodes
      rw [List.length_take, List.length_mergeSort]
      omega
    refine ⟨le_of_eq hlen, fun _ => hlen, fun _ e he => ?_⟩
    split at he
    · have he2 := List.mem_filter.mp he
      have hb := he2.2
      simp only [Bool.and_eq_true] at hb
      exact ⟨exists_node_of_contains hb.1, exists_node_of_contains hb.2⟩
    · simp at he
  · rw [if_neg h]
    rw [List.length_map] at h
    refine ⟨?_, fun hgt => ?_, fun hgt => ?_⟩
    · rw [List.length_map]
      omega
    · omega
    · omega

def c4Item (i : Nat) : IndexedItem :=
  { id := "i" ++ Nat.repr i, name := "n" ++ Nat.repr i, path := "/a/n" ++ Nat.repr i,
    templateId := "t", templateName := "Page", parentId := "", hasChildren := false,
    updated := "", language := "en" }

def c4Scan : ScanResult :=
  { emptyScanBase with items := [("i1", c4Item 1), ("i2", c4Item 2), ("i3", c4Item 3)] }

def c4Opts : GraphOptions :=
  { nodeTypes := [.item], maxNodes := 2, centerOn := "", includeEdges := true }

/-- Witness for C4: three collected item candidates against a budget of two
yield exactly two nodes. -/
theorem graph_node_budget_witness :
    ((collectGraph c4Scan c4Opts).nodes.length > c4Opts.maxNodes) ∧
    (buildKnowledgeGraph "T" c4Scan c4Opts).nodes.length = c4Opts.maxNodes :=
  ⟨by decide, (graph_node_budget "T" c4Scan c4Opts).2.1 (by decide)⟩

end Conduit
namespace Conduit

/-- `processChildren` only ever appends to `progress.errors`. -/
lemma processChildren_errors (env : ScanEnv) (cfg : XRayScanConfig) (depth : Nat) :
    ∀ (children : List SitecoreItem) (res : ScanResult) (queue : List String),
      ∃ suf, (processChildren env cfg false depth children res queue).1.progress.errors =
        res.progress.errors ++ suf := by
  intro children
  induction children with
  | nil => intro res queue; exact ⟨[], by simp [processChildren]⟩
  | cons it rest ih =>
    intro res queue
    unfold processChildren
    simp only [Bool.false_eq_true, if_false]
    split
    · exact ⟨[scanErr res.progress.currentPath (truncMsg cfg.maxItems) env.nowIso],
        by simp [pushScanError, scanErr]⟩
    · exact ih _ _

/-- The Tier-1 loop only ever appends to `progress.errors`. -/
lemma scanItemsLoop_errors (env : ScanEnv) (O : ScanOracle) (cfg : XRayScanConfig) :
    ∀ (fuel : Nat) (res : ScanResult) (queue : List String) (depth : Nat) (r : ScanResult)
      (esc : Option String),
      scanItemsLoop env O cfg false fuel res queue depth = some (r, esc) →
      ∃ suf, r.progress.errors = res.progress.errors ++ suf := by
  intro fuel
  induction fuel with
  | zero => intro res queue depth r esc h; simp [scanItemsLoop] at h
  | succ fuel ih =>
    intro res queue depth r esc h
    cases queue with
    | nil =>
      unfold scanItemsLoop at h
      simp at h
      exact ⟨[], by rw [h.1]; simp⟩
    | cons p rest =>
      unfold scanItemsLoop at h
      simp only [Bool.false_eq_true, if_false] at h
      cases hf : O.fetchChildren p with
      | error m =>
        rw [hf] at h
        dsimp only at h
        cases hp : O.onProgress (pushScanError
            { res with progress := { res.progress with currentPath := p } } p m
            env.nowIso).progress with
        | error e2 =>
          rw [hp] at h
          simp at h
          obtain ⟨hr, -⟩ := h
          exact ⟨[scanErr p m env.nowIso], by rw [← hr]; simp [pushScanError, scanErr]⟩
        | ok u =>
          rw [hp] at h
          obtain ⟨suf, hsuf⟩ := ih _ _ _ _ _ h
          refine ⟨scanErr p m env.nowIso :: suf, ?_⟩
          rw [hsuf]
          simp [pushScanError, scanErr]
      | ok children =>
        rw [hf] at h
        dsimp only at h
        obtain ⟨suf2, hsuf2⟩ := processChildren_errors env cfg depth children
          { res with progress := { res.progress with currentPath := p } } rest
        cases hpc : processChildren env cfg false depth children
            { res with progress := { res.progress with currentPath := p } } rest with
        | mk res2 q2t =>
        rw [hpc] at h hsuf2
        cases q2t with
        | mk q2 trunc =>
        cases trunc with
        | true =>
          simp at h
          obtain ⟨hr, -⟩ := h
          exact ⟨suf2, by rw [← hr]; exact hsuf2⟩
        | false =>
          dsimp only at h
          cases hp : O.onProgress res2.progress with
          | error e2 =>
            rw [hp] at h
            simp at h
            obtain ⟨hr, -⟩ := h
            exact ⟨suf2, by rw [← hr]; exact hsuf2⟩
          | ok u =>
            rw [hp] at h
            obtain ⟨suf1, hsuf1⟩ := ih _ _ _ _ _ h
            exact ⟨suf2 ++ suf1, by rw [hsuf1, hsuf2]; simp⟩

/-- With a non-throwing progress callback, no exception escapes the Tier-1
loop. -/
lemma scanItemsLoop_noEscape (env : ScanEnv) (O : ScanOracle) (cfg : XRayScanConfig)
    (hProg : ∀ pr, O.onProgress pr = .ok ()) :
    ∀ (fuel : Nat) (res : ScanResult) (queue : List String) (depth : Nat) (r : ScanResult)
      (esc : Option String),
      scanItemsLoop env O cfg false fuel res queue depth = some (r, esc) → esc = none := by
  intro fuel
  induction fuel with
  | zero => intro res queue depth r esc h; simp [scanItemsLoop] at h
  | succ fuel ih =>
    intro res queue depth r esc h
    cases queue with
    | nil =>
      unfold scanItemsLoop at h
      simp at h
      exact h.2.symm
    | cons p rest =>
      unfold scanItemsLoop at h
      simp only [Bool.false_eq_true, if_false] at h
      cases hf : O.fetchChildren p with
      | error m =>
        rw [hf] at h
        dsimp only at h
        rw [hProg] at h
        exact ih _ _ _ _ _ h
      | ok children =>
        rw [hf] at h
        dsimp only at h
        cases hpc : processChildren env cfg false depth children
            { res with progress := { res.progress with currentPath := p } } rest with
        | mk res2 q2t =>
        rw [hpc] at h
        cases q2t with
        | mk q2 trunc =>
        cases trunc with
        | true => simp at h; exact h.2.symm
        | false =>
          dsimp only at h
          rw [hProg] at h
          exact ih _ _ _ _ _ h

/-- With a non-throwing progress callback, no exception escapes `scanItems`. -/
lemma scanItems_noEscape (env : ScanEnv) (O : ScanOracle) (cfg : XRayScanConfig)
    (hProg : ∀ pr, O.onProgress pr = .ok ()) (fuel : Nat) (res : ScanResult) (r : ScanResult)
    (esc : Option String) (h : scanItems env O cfg false fuel res = some (r, esc)) :
    esc = none := by
  unfold scanItems at h
  exact scanItemsLoop_noEscape env O cfg hProg fuel _ _ _ _ _ h

/-- With a non-throwing progress callback the deep-scan phase returns no
escaping exception. -/
lemma deepScan_ok (O : ScanOracle) (hProg : ∀ pr, O.onProgress pr = .ok ())
    (ab : Bool) (res : ScanResult) :
    ∃ r2, deepScanFlaggedItems O ab res = (r2, none) := by
  unfold deepScanFlaggedItems
  dsimp only
  rw [hProg]
  exact ⟨_, rfl⟩

/-- A body result with no escaping exception always carries
`status = complete`. -/
lemma scanBody_none_complete (env : ScanEnv) (O : ScanOracle) (cfg : XRayScanConfig)
    (ab : Bool) (fuel : Nat) (res0 : ScanResult) (st : ScanResult)
    (h : scanBody env O cfg ab fuel res0 = some (st, none)) : st.status = .complete := by
  unfold scanBody at h
  cases hsi : scanItems env O cfg ab fuel res0 with
  | none => rw [hsi] at h; simp at h
  | some pr =>
    rw [hsi] at h
    cases pr with
    | mk res1 esc1 =>
    cases esc1 with
    | some e => simp at h
    | none =>
      dsimp only at h
      cases hD : (if cfg.tier ≥ 2 then
          deepScanFlaggedItems O ab (scanStages env O cfg res1)
        else (scanStages env O cfg res1, none)) with
      | mk res2 esc2 =>
      rw [hD] at h
      cases esc2 with
      | some e => simp at h
      | none =>
        simp at h
        subst h
        rfl

/-- With a non-throwing progress callback, no exception escapes the body of
the top-level `try`. -/
lemma scanBody_noEscape (env : ScanEnv) (O : ScanOracle) (cfg : XRayScanConfig)
    (hProg : ∀ pr, O.onProgress pr = .ok ()) (fuel : Nat) (res0 : ScanResult) (st : ScanResult)
    (esc : Option String) (h : scanBody env O cfg false fuel res0 = some (st, esc)) :
    esc = none := by
  unfold scanBody at h
  cases hsi : scanItems env O cfg false fuel res0 with
  | none => rw [hsi] at h; simp at h
  | some pr =>
    rw [hsi] at h
    cases pr with
    | mk res1 esc1 =>
    cases esc1 with
    | some e =>
      have hne := scanItems_noEscape env O cfg hProg fuel res0 res1 (some e) hsi
      simp at hne
    | none =>
      dsimp only at h
      by_cases htier : cfg.tier ≥ 2
      · rw [if_pos htier] at h
        obtain ⟨r2, hr2⟩ := deepScan_ok O hProg false (scanStages env O cfg res1)
        rw [hr2] at h
        dsimp only at h
        simp at h
        exact h.2.symm
      · rw [if_neg htier] at h
        dsimp only at h
        simp at h
        exact h.2.symm

end Conduit
namespace Conduit

def c3Cfg : XRayScanConfig :=
  { rootPath := "/r", maxDepth := -1, includeTemplates := false, includeMedia := false,
    includeRenderings := false, languages := [], database := "master", requestDelay := 0,
    maxItems := 100, tier := 1 }

def c3Env : ScanEnv := { nowIso := "T", scanId := "s" }

/-- Oracle whose child fetch throws on every path and whose progress callback
never throws. -/
def c3Oracle : ScanOracle :=
  { fetchChildren := fun _ => .error "boom",
    fetchTemplates := .ok [], fetchMedia := .ok [], fetchRenderings := .ok [],
    fetchDeepItemData := fun _ => none,
    onProgress := fun _ => .ok () }

/-- **C3**: (a) a per-path child fetch that throws appends a `ScanError` for
that path and the loop continues with the remaining queue at the next depth;
(b) hence the thrown error appears in the final `progress.errors` of any
terminating loop run when the progress callback never throws; (c) with a
non-throwing progress callback every terminating `scan` ends with
`status = complete`; (d) `status = failed` holds iff an exception escaped the
body of the top-level `try`. -/
theorem scan_error_isolation_and_failure_semantics
    (env : ScanEnv) (O : ScanOracle) (cfg : XRayScanConfig) :
    (∀ fuel res p rest depth m,
      O.fetchChildren p = .error m →
      O.onProgress (pushScanError
        { res with progress := { res.progress with currentPath := p } } p m
        env.nowIso).progress = .ok () →
      scanItemsLoop env O cfg false (fuel + 1) res (p :: rest) depth =
        scanItemsLoop env O cfg false fuel
          (pushScanError { res with progress := { res.progress with currentPath := p } } p m
            env.nowIso) rest (depth + 1)) ∧
    (∀ fuel res p rest depth m r esc,
      (∀ pr, O.onProgress pr = .ok ()) →
      O.fetchChildren p = .error m →
      scanItemsLoop env O cfg false (fuel + 1) res (p :: rest) depth = some (r, esc) →
      scanErr p m env.nowIso ∈ r.progress.errors) ∧
    (∀ fuel r,
      (∀ pr, O.onProgress pr = .ok ()) →
      scan env O cfg false fuel = some r → r.status = .complete) ∧
    (∀ fuel r,
      scan env O cfg false fuel = some r →
      (r.status = .failed ↔
        ∃ st e, scanBody env O cfg false fuel (scanInitial env cfg) = some (st, some e))) := by
  have step : ∀ (fuel : Nat) (res : ScanResult) (p : String) (rest : List String)
      (depth : Nat) (m : String),
      O.fetchChildren p = .error m →
      O.onProgress (pushScanError
        { res with progress := { res.progress with currentPath := p } } p m
        env.nowIso).progress = .ok () →
      scanItemsLoop env O cfg false (fuel + 1) res (p :: rest) depth =
        scanItemsLoop env O cfg false fuel
          (pushScanError { res with progress := { res.progress with currentPath := p } } p m
            env.nowIso) rest (depth + 1) := by
    intro fuel res p rest depth m hf hp
    rw [scanItemsLoop]
    simp only [Bool.false_eq_true, if_false]
    rw [hf]
    dsimp only
    rw [hp]
  refine ⟨step, ?_, ?_, ?_⟩
  · intro fuel res p rest depth m r esc hProg hf h
    rw [step fuel res p rest depth m hf (hProg _)] at h
    obtain ⟨suf, hsuf⟩ := scanItemsLoop_errors env O cfg fuel _ rest (depth + 1) r esc h
    rw [hsuf]
    simp [pushScanError, scanErr]
  · intro fuel r hProg h
    unfold scan at h
    cases hB : scanBody env O cfg false fuel (scanInitial env cfg) with
    | none => rw [hB] at h; simp at h
    | some pr =>
      rw [hB] at h
      obtain ⟨st, esc⟩ := pr
      have hesc := scanBody_noEscape env O cfg hProg fuel _ st esc hB
      subst hesc
      simp at h
      rw [← h]
      exact scanBody_none_complete env O cfg false fuel _ st hB
  · intro fuel r h
    unfold scan at h
    cases hB : scanBody env O cfg false fuel (scanInitial env cfg) with
    | none => rw [hB] at h; simp at h
    | some pr =>
      rw [hB] at h
      obtain ⟨st, esc⟩ := pr
      cases esc with
      | none =>
        simp at h
        subst h
        have hc := scanBody_none_complete env O cfg false fuel _ st hB
        constructor
        · intro hfail
          rw [hc] at hfail
          simp at hfail
        · rintro ⟨st2, e2, hB2⟩
          simp at hB2
      | some e =>
        simp at h
        have hr : r.status = .failed := by rw [← h]
        exact ⟨fun _ => ⟨st, e, rfl⟩, fun _ => hr⟩

/-- **C3, witness**: with `c3Oracle` the root fetch throws `"boom"`; the run
terminates with status `complete` and the error recorded. -/
theorem scan_error_isolation_witness :
    (c3Oracle.fetchChildren "/r" = Except.error "boom") ∧
    ((scan c3Env c3Oracle c3Cfg false 2).map (fun r => r.status) = some .complete) ∧
    ((scan c3Env c3Oracle c3Cfg false 2).map
      (fun r => r.progress.errors.contains (scanErr "/r" "boom" "T")) = some true) := by
  refine ⟨rfl, ?_, by decide⟩
  cases hr : scan c3Env c3Oracle c3Cfg false 2 with
  | none => exact absurd hr (by decide)
  | some r =>
    have := (scan_error_isolation_and_failure_semantics c3Env c3Oracle c3Cfg).2.2.1 2 r
      (fun pr => rfl) hr
    simp [this]

end Conduit
namespace Conduit

lemma mapSet_length_le {α : Type} (k : String) (v : α) :
    ∀ m : List (String × α), (mapSet m k v).length ≤ m.length + 1 := by
  intro m
  induction m with
  | nil => simp [mapSet]
  | cons p rest ih =>
    unfold mapSet
    split
    · simp
    · simpa using Nat.le_trans ih (by omega)

/-- Simulation between `processChildren` under `maxItems = N` and under a
larger budget `M`: as long as the incoming map respects the budget, either
the two runs agree (and stay within the budget, adding no errors), or the
budgeted run truncates with exactly `maxItems` entries and the single
truncation error appended. -/
lemma processChildren_sim (env : ScanEnv) (cfg : XRayScanConfig) (M : Nat)
    (hNM : cfg.maxItems < M) (depth : Nat) :
    ∀ (children : List SitecoreItem) (res : ScanResult) (queue : List String),
      res.items.length ≤ cfg.maxItems →
      (processChildren env cfg false depth children res queue =
         processChildren env { cfg with maxItems := M } false depth children res queue
       ∧ (processChildren env cfg false depth children res queue).1.items.length ≤ cfg.maxItems
       ∧ (processChildren env cfg false depth children res queue).1.progress.errors =
           res.progress.errors
       ∧ (processChildren env cfg false depth children res queue).2.2 = false)
      ∨ ((processChildren env cfg false depth children res queue).2.2 = true
       ∧ (processChildren env cfg false depth children res queue).1.items.length = cfg.maxItems
       ∧ ∃ q, (processChildren env cfg false depth children res queue).1.progress.errors =
           res.progress.errors ++ [scanErr q (truncMsg cfg.maxItems) env.nowIso]) := by
  intro children
  induction children with
  | nil =>
    intro res queue hlen
    exact Or.inl ⟨rfl, by simpa [processChildren] using hlen, by simp [processChildren],
      by simp [processChildren]⟩
  | cons it rest ih =>
    intro res queue hlen
    by_cases hge : res.items.length ≥ cfg.maxItems
    · refine Or.inr ?_
      have hstep : processChildren env cfg false depth (it :: rest) res queue =
          (pushScanError res res.progress.currentPath (truncMsg cfg.maxItems) env.nowIso,
            queue, true) := by
        rw [processChildren]
        simp only [Bool.false_eq_true, if_false]
        rw [if_pos hge]
      rw [hstep]
      refine ⟨rfl, ?_, res.progress.currentPath, ?_⟩
      · simpa [pushScanError] using Nat.le_antisymm hlen hge
      · simp [pushScanError, scanErr]
    · have hlt : res.items.length < cfg.maxItems := Nat.lt_of_not_le hge
      have hgeM : ¬ res.items.length ≥ M := by omega
      have hstepN : processChildren env cfg false depth (it :: rest) res queue =
          processChildren env cfg false depth rest
            { res with
              items := mapSet res.items it.ItemID (projectIndexedItem cfg it),
              progress := { res.progress with itemsScanned := res.progress.itemsScanned + 1 } }
            (if it.HasChildren.getD false && shouldContinueDepth cfg depth then
              queue ++ [it.ItemPath] else queue) := by
        rw [processChildren]
        simp only [Bool.false_eq_true, if_false]
        rw [if_neg hge]
      have hstepM : processChildren env { cfg with maxItems := M } false depth (it :: rest)
          res queue =
          processChildren env { cfg with maxItems := M } false depth rest
            { res with
              items := mapSet res.items it.ItemID (projectIndexedItem cfg it),
              progress := { res.progress with itemsScanned := res.progress.itemsScanned + 1 } }
            (if it.HasChildren.getD false && shouldContinueDepth cfg depth then
              queue ++ [it.ItemPath] else queue) := by
        rw [processChildren]
        simp only [Bool.false_eq_true, if_false]
        rw [if_neg hgeM]
        rfl
      have hlen2 : (mapSet res.items it.ItemID (projectIndexedItem cfg it)).length ≤
          cfg.maxItems :=
        Nat.le_trans (mapSet_length_le _ _ res.items) (by omega)
      rw [hstepN, hstepM]
      exact ih _ _ hlen2
end Conduit
namespace Conduit

/-- Simulation between the Tier-1 loop under `maxItems = N` and under a
larger budget `M`, for an oracle whose fetches succeed and whose progress
callback never throws: either the two runs agree (and the budgeted run's
items stay within budget), or the budgeted run stops with exactly
`maxItems` entries and a single truncation error appended. -/
lemma scanItemsLoop_sim (env : ScanEnv) (O : ScanOracle) (cfg : XRayScanConfig) (M : Nat)
    (hNM : cfg.maxItems < M)
    (hProg : ∀ pr, O.onProgress pr = .ok ())
    (hOk : ∀ p, ∃ l, O.fetchChildren p = .ok l) :
    ∀ (fuel : Nat) (res : ScanResult) (queue : List String) (depth : Nat),
      res.items.length ≤ cfg.maxItems →
      (scanItemsLoop env O cfg false fuel res queue depth =
         scanItemsLoop env O { cfg with maxItems := M } false fuel res queue depth
       ∧ ∀ r esc, scanItemsLoop env O cfg false fuel res queue depth = some (r, esc) →
           r.items.length ≤ cfg.maxItems)
      ∨ (∃ res1 q, scanItemsLoop env O cfg false fuel res queue depth = some (res1, none)
         ∧ res1.items.length = cfg.maxItems
         ∧ res1.progress.errors =
             res.progress.errors ++ [scanErr q (truncMsg cfg.maxItems) env.nowIso]) := by
  intro fuel
  induction fuel with
  | zero =>
    intro res queue depth hlen
    refine Or.inl ⟨rfl, ?_⟩
    intro r esc h
    simp [scanItemsLoop] at h
  | succ fuel ih =>
    intro res queue depth hlen
    cases queue with
    | nil =>
      refine Or.inl ⟨rfl, ?_⟩
      intro r esc h
      rw [scanItemsLoop] at h
      simp at h
      rw [← h.1]
      exact hlen
    | cons p rest =>
      obtain ⟨children, hf⟩ := hOk p
      have hlen1 : ({ res with progress := { res.progress with currentPath := p }
        } : ScanResult).items.length ≤ cfg.maxItems := hlen
      rcases processChildren_sim env cfg M hNM depth children
          { res with progress := { res.progress with currentPath := p } } rest hlen1 with
        ⟨hEq, hLen, hErr, hFlag⟩ | ⟨hFlag, hLen, q, hErr⟩
      · cases hpc : processChildren env cfg false depth children
            { res with progress := { res.progress with currentPath := p } } rest with
        | mk res2 q2t =>
        cases q2t with
        | mk q2 fl =>
        rw [hpc] at hEq hLen hErr hFlag
        simp at hFlag
        subst hFlag
        have hstepN : scanItemsLoop env O cfg false (fuel + 1) res (p :: rest) depth =
            scanItemsLoop env O cfg false fuel res2 q2 (depth + 1) := by
          rw [scanItemsLoop]
          simp only [Bool.false_eq_true, if_false]
          rw [hf]
          dsimp only
          rw [hpc]
          dsimp only
          rw [hProg]
        have hstepM : scanItemsLoop env O { cfg with maxItems := M } false (fuel + 1) res
            (p :: rest) depth =
            scanItemsLoop env O { cfg with maxItems := M } false fuel res2 q2 (depth + 1) := by
          rw [scanItemsLoop]
          simp only [Bool.false_eq_true, if_false]
          rw [hf]
          dsimp only
          rw [← hEq]
          dsimp only
          rw [hProg]
        rw [hstepN, hstepM]
        rcases ih res2 q2 (depth + 1) (by simpa using hLen) with hE2 | ⟨res3, q3, hS3, hL3, hE3⟩
        · exact Or.inl hE2
        · refine Or.inr ⟨res3, q3, hS3, hL3, ?_⟩
          rw [hE3]
          rw [show res2.progress.errors = res.progress.errors from by simpa using hErr]
      · cases hpc : processChildren env cfg false depth children
            { res with progress := { res.progress with currentPath := p } } rest with
        | mk res2 q2t =>
        cases q2t with
        | mk q2 fl =>
        rw [hpc] at hFlag hLen hErr
        simp at hFlag
        subst hFlag
        have hstepN : scanItemsLoop env O cfg false (fuel + 1) res (p :: rest) depth =
            some (res2, none) := by
          rw [scanItemsLoop]
          simp only [Bool.false_eq_true, if_false]
          rw [hf]
          dsimp only
          rw [hpc]
        refine Or.inr ⟨res2, q, hstepN, by simpa using hLen, ?_⟩
        simpa using hErr

end Conduit
namespace Conduit

lemma foldl_items_errors {α : Type} (f : ScanResult → α → ScanResult)
    (hf : ∀ r a, (f r a).items = r.items ∧ (f r a).progress.errors = r.progress.errors) :
    ∀ (l : List α) (r : ScanResult),
      (l.foldl f r).items = r.items ∧ (l.foldl f r).progress.errors = r.progress.errors := by
  intro l
  induction l with
  | nil => intro r; exact ⟨rfl, rfl⟩
  | cons a rest ih =>
    intro r
    simp only [List.foldl_cons]
    exact ⟨((ih (f r a)).1).trans (hf r a).1, ((ih (f r a)).2).trans (hf r a).2⟩

lemma scanTemplates_pres (env : ScanEnv) (O : ScanOracle)
    (hProg : ∀ pr, O.onProgress pr = .ok ()) (hT : ∃ l, O.fetchTemplates = .ok l)
    (res : ScanResult) :
    (scanTemplates env O res).items = res.items ∧
    (scanTemplates env O res).progress.errors = res.progress.errors := by
  obtain ⟨l, hl⟩ := hT
  unfold scanTemplates
  dsimp only
  rw [hl]
  dsimp only
  rw [hProg]
  dsimp only
  refine ⟨(foldl_items_errors _ ?_ l _).1, (foldl_items_errors _ ?_ l _).2⟩ <;>
    exact fun r a => ⟨rfl, rfl⟩

lemma scanMedia_pres (env : ScanEnv) (O : ScanOracle)
    (hProg : ∀ pr, O.onProgress pr = .ok ()) (hM : ∃ l, O.fetchMedia = .ok l)
    (res : ScanResult) :
    (scanMedia env O res).items = res.items ∧
    (scanMedia env O res).progress.errors = res.progress.errors := by
  obtain ⟨l, hl⟩ := hM
  unfold scanMedia
  dsimp only
  rw [hl]
  dsimp only
  rw [hProg]
  dsimp only
  refine ⟨(foldl_items_errors _ ?_ l _).1, (foldl_items_errors _ ?_ l _).2⟩ <;>
    exact fun r a => ⟨rfl, rfl⟩

lemma scanRenderings_pres (env : ScanEnv) (O : ScanOracle)
    (hProg : ∀ pr, O.onProgress pr = .ok ()) (hR : ∃ l, O.fetchRenderings = .ok l)
    (res : ScanResult) :
    (scanRenderings env O res).items = res.items ∧
    (scanRenderings env O res).progress.errors = res.progress.errors := by
  obtain ⟨l, hl⟩ := hR
  unfold scanRenderings
  dsimp only
  rw [hl]
  dsimp only
  rw [hProg]
  dsimp only
  refine ⟨(foldl_items_errors _ ?_ l _).1, (foldl_items_errors _ ?_ l _).2⟩ <;>
    exact fun r a => ⟨rfl, rfl⟩

lemma scanStages_pres (env : ScanEnv) (O : ScanOracle) (cfg : XRayScanConfig)
    (hProg : ∀ pr, O.onProgress pr = .ok ())
    (hT : ∃ l, O.fetchTemplates = .ok l) (hM : ∃ l, O.fetchMedia = .ok l)
    (hR : ∃ l, O.fetchRenderings = .ok l) (res : ScanResult) :
    (scanStages env O cfg res).items = res.items ∧
    (scanStages env O cfg res).progress.errors = res.progress.errors := by
  unfold scanStages
  dsimp only
  have h1 : (if cfg.includeTemplates then scanTemplates env O res else res).items = res.items ∧
      (if cfg.includeTemplates then scanTemplates env O res else res).progress.errors =
        res.progress.errors := by
    split
    · exact scanTemplates_pres env O hProg hT res
    · exact ⟨rfl, rfl⟩
  have h2 : (if cfg.includeMedia then
        scanMedia env O (if cfg.includeTemplates then scanTemplates env O res else res)
      else (if cfg.includeTemplates then scanTemplates env O res else res)).items =
        res.items ∧
      (if cfg.includeMedia then
        scanMedia env O (if cfg.includeTemplates then scanTemplates env O res else res)
      else (if cfg.includeTemplates then scanTemplates env O res else res)).progress.errors =
        res.progress.errors := by
    split
    · exact ⟨((scanMedia_pres env O hProg hM _).1).trans h1.1,
        ((scanMedia_pres env O hProg hM _).2).trans h1.2⟩
    · exact h1
  split
  · exact ⟨((scanRenderings_pres env O hProg hR _).1).trans h2.1,
      ((scanRenderings_pres env O hProg hR _).2).trans h2.2⟩
  · exact h2

lemma deepScan_pres (O : ScanOracle) (ab : Bool) (res : ScanResult) :
    (deepScanFlaggedItems O ab res).1.items = res.items ∧
    (deepScanFlaggedItems O ab res).1.progress.errors = res.progress.errors := by
  unfold deepScanFlaggedItems
  dsimp only
  have hfold := foldl_items_errors
    (fun res itemId =>
      if ab then res
      else match O.fetchDeepItemData itemId with
        | some deepData => { res with deepData := (mapSet res.deepData itemId deepData) }
        | none => res)
    (by
      intro r a
      dsimp only
      split
      · exact ⟨rfl, rfl⟩
      · cases O.fetchDeepItemData a
        · exact ⟨rfl, rfl⟩
        · exact ⟨rfl, rfl⟩)
  split
  · exact ⟨(hfold _ _).1, (hfold _ _).2⟩
  · exact ⟨(hfold _ _).1, (hfold _ _).2⟩

lemma buildRelationshipMaps_pres (res : ScanResult) :
    (buildRelationshipMaps res).items = res.items ∧
    (buildRelationshipMaps res).progress.errors = res.progress.errors := by
  unfold buildRelationshipMaps
  dsimp only
  have h1 := foldl_items_errors
    (fun (res : ScanResult) (p : String × IndexedItem) =>
      if p.2.parentId ≠ "" then
        { res with childrenMap := (mapSet res.childrenMap p.2.parentId
            ((mapGet res.childrenMap p.2.parentId).getD [] ++ [p.1])) }
      else res)
    (by
      intro r a
      dsimp only
      split
      · exact ⟨rfl, rfl⟩
      · exact ⟨rfl, rfl⟩)
  have h2 := foldl_items_errors
    (fun (res : ScanResult) (p : String × IndexedItem) =>
      ({ res with templateUsage := (mapSet res.templateUsage p.2.templateId
          ((mapGet res.templateUsage p.2.templateId).getD [] ++ [p.1])) } : ScanResult))
    (fun r a => ⟨rfl, rfl⟩)
  have h3 := foldl_items_errors
    (fun (res : ScanResult) (p : String × DeepItemData) => p.2.renderings.foldl (fun res r =>
      ({ res with renderingUsage := (mapSet res.renderingUsage r.renderingId
          ((mapGet res.renderingUsage r.renderingId).getD [] ++ [p.1])) } : ScanResult)) res)
    (by
      intro r a
      dsimp only
      refine ⟨(foldl_items_errors _ ?_ _ _).1, (foldl_items_errors _ ?_ _ _).2⟩ <;>
        exact fun r2 a2 => ⟨rfl, rfl⟩)
  exact ⟨((h3 _ _).1.trans ((h2 _ _).1.trans (h1 _ _).1)),
    ((h3 _ _).2.trans ((h2 _ _).2.trans (h1 _ _).2))⟩

end Conduit
namespace Conduit

/-- The Tier-1 entry state: `scanInitial` with the phase set to `items`, as
`scanItems` does on entry. -/
def tier1Start (env : ScanEnv) (cfg : XRayScanConfig) : ScanResult :=
  { scanInitial env cfg with
    progress := { (scanInitial env cfg).progress with phase := .items } }

lemma scanItems_eq (env : ScanEnv) (O : ScanOracle) (cfg : XRayScanConfig) (ab : Bool)
    (fuel : Nat) :
    scanItems env O cfg ab fuel (scanInitial env cfg) =
      scanItemsLoop env O cfg ab fuel (tier1Start env cfg) [cfg.rootPath] 0 := rfl

/-- Composing a successful Tier-1 run through the rest of `scanBody`: the
later phases preserve the items map and the error list, and the result is
marked complete. -/
lemma scanBody_of_scanItems (env : ScanEnv) (O : ScanOracle) (cfg : XRayScanConfig)
    (fuel : Nat) (res1 : ScanResult)
    (hProg : ∀ pr, O.onProgress pr = .ok ())
    (hT : ∃ l, O.fetchTemplates = .ok l) (hMe : ∃ l, O.fetchMedia = .ok l)
    (hR : ∃ l, O.fetchRenderings = .ok l)
    (hsi : scanItems env O cfg false fuel (scanInitial env cfg) = some (res1, none)) :
    ∃ r, scanBody env O cfg false fuel (scanInitial env cfg) = some (r, none) ∧
      r.items = res1.items ∧ r.progress.errors = res1.progress.errors ∧
      r.status = .complete := by
  unfold scanBody
  rw [hsi]
  dsimp only
  by_cases htier : cfg.tier ≥ 2
  · rw [if_pos htier]
    obtain ⟨r2, hr2⟩ := deepScan_ok O hProg false (scanStages env O cfg res1)
    rw [hr2]
    dsimp only
    have hd := deepScan_pres O false (scanStages env O cfg res1)
    rw [hr2] at hd
    refine ⟨_, rfl, ?_, ?_, rfl⟩
    · exact (buildRelationshipMaps_pres r2).1.trans
        (hd.1.trans (scanStages_pres env O cfg hProg hT hMe hR res1).1)
    · exact (buildRelationshipMaps_pres r2).2.trans
        (hd.2.trans (scanStages_pres env O cfg hProg hT hMe hR res1).2)
  · rw [if_neg htier]
    dsimp only
    refine ⟨_, rfl, ?_, ?_, rfl⟩
    · exact (buildRelationshipMaps_pres _).1.trans
        (scanStages_pres env O cfg hProg hT hMe hR res1).1
    · exact (buildRelationshipMaps_pres _).2.trans
        (scanStages_pres env O cfg hProg hT hMe hR res1).2

/-- **C2**: if the same crawl run with a larger `maxItems` budget `M` would
terminate normally with more than `maxItems` items (the tree offers more
than `maxItems` reachable items), and no fetch or progress callback throws,
then the budgeted scan completes (`status = complete`) with exactly
`maxItems` entries in the items map and exactly one truncation error in
`progress.errors`. -/
theorem scan_truncates_at_maxItems (env : ScanEnv) (O : ScanOracle) (cfg : XRayScanConfig)
    (fuel M : Nat) (resM : ScanResult)
    (hM : cfg.maxItems < M)
    (hProg : ∀ pr, O.onProgress pr = .ok ())
    (hOk : ∀ p, ∃ l, O.fetchChildren p = .ok l)
    (hT : ∃ l, O.fetchTemplates = .ok l) (hMe : ∃ l, O.fetchMedia = .ok l)
    (hR : ∃ l, O.fetchRenderings = .ok l)
    (hRun : scanItemsLoop env O { cfg with maxItems := M } false fuel (tier1Start env cfg)
      [cfg.rootPath] 0 = some (resM, none))
    (hMore : cfg.maxItems < resM.items.length) :
    ∃ r q, scan env O cfg false fuel = some r ∧ r.status = .complete ∧
      r.items.length = cfg.maxItems ∧
      r.progress.errors = [scanErr q (truncMsg cfg.maxItems) env.nowIso] := by
  have hlen0 : (tier1Start env cfg).items.length ≤ cfg.maxItems := by
    simp [tier1Start, scanInitial, initializeResult]
  rcases scanItemsLoop_sim env O cfg M hM hProg hOk fuel (tier1Start env cfg) [cfg.rootPath] 0
      hlen0 with ⟨hEq, hInv⟩ | ⟨res1, q, hS, hL, hErr⟩
  · exfalso
    have := hInv resM none (hEq.trans hRun)
    omega
  · have hsi : scanItems env O cfg false fuel (scanInitial env cfg) = some (res1, none) := by
      rw [scanItems_eq]
      exact hS
    obtain ⟨r, hB, hItems, hErrs, hStatus⟩ :=
      scanBody_of_scanItems env O cfg fuel res1 hProg hT hMe hR hsi
    refine ⟨r, q, ?_, hStatus, ?_, ?_⟩
    · unfold scan
      rw [hB]
    · rw [hItems, hL]
    · rw [hErrs, hErr]
      simp [tier1Start, scanInitial, initializeResult]

def c2Item (i : Nat) : SitecoreItem :=
  { ItemID := "id" ++ Nat.repr i, ItemName := "n", ItemPath := "/r/c" ++ Nat.repr i,
    TemplateID := "t", TemplateName := "T", ParentID := some "root",
    HasChildren := some false, ItemUpdated := none, ItemLanguage := none, ItemFields := none }

def c2Children : List SitecoreItem := (List.range 5).map c2Item

def c2Cfg : XRayScanConfig :=
  { rootPath := "/r", maxDepth := -1, includeTemplates := false, includeMedia := false,
    includeRenderings := false, languages := [], database := "master", requestDelay := 0,
    maxItems := 3, tier := 1 }

def c2Env : ScanEnv := { nowIso := "T", scanId := "s" }

/-- Oracle serving five children under the root and nothing anywhere else. -/
def c2Oracle : ScanOracle :=
  { fetchChildren := fun p => .ok (if p == "/r" then c2Children else []),
    fetchTemplates := .ok [], fetchMedia := .ok [], fetchRenderings := .ok [],
    fetchDeepItemData := fun _ => none,
    onProgress := fun _ => .ok () }

/-- **C2, witness**: five reachable items against `maxItems = 3` give a
complete scan with exactly three items and one truncation error. -/
theorem scan_truncation_witness :
    ((scan c2Env c2Oracle c2Cfg false 2).map (fun r => r.status) = some .complete) ∧
    ((scan c2Env c2Oracle c2Cfg false 2).map (fun r => r.items.length) =
      some c2Cfg.maxItems) ∧
    ((scan c2Env c2Oracle c2Cfg false 2).map (fun r => r.progress.errors) =
      some [scanErr "/r" (truncMsg c2Cfg.maxItems) c2Env.nowIso]) := by
  refine ⟨?_, ?_, by decide⟩ <;>
  · cases hrun : scanItemsLoop c2Env c2Oracle { c2Cfg with maxItems := 10 } false 2
        (tier1Start c2Env c2Cfg) ["/r"] 0 with
    | none => exact absurd hrun (by decide)
    | some pr =>
      obtain ⟨resM, esc⟩ := pr
      have hesc : esc = none :=
        scanItemsLoop_noEscape c2Env c2Oracle _ (fun pr => rfl) 2 _ _ _ _ _ hrun
      subst hesc
      have hMore : c2Cfg.maxItems < resM.items.length := by
        have hval : (scanItemsLoop c2Env c2Oracle { c2Cfg with maxItems := 10 } false 2
            (tier1Start c2Env c2Cfg) ["/r"] 0).map
            (fun pr => decide (c2Cfg.maxItems < pr.1.items.length)) = some true := by decide
        rw [hrun] at hval
        simp at hval
        exact hval
      obtain ⟨r, q, hscan, hst, hlen, herr⟩ :=
        scan_truncates_at_maxItems c2Env c2Oracle c2Cfg 2 10 resM (by decide) (fun pr => rfl)
          (fun p => ⟨_, rfl⟩) ⟨[], rfl⟩ ⟨[], rfl⟩ ⟨[], rfl⟩ hrun hMore
      rw [hscan]
      simp [hst, hlen]

end Conduit
